import Mathlib

/-!
The tool create-cert-request: command line resolution and the generation
pipeline.

A shallow embedding of the two Go source files `cliflag.go` and `main.go`.

Modelling conventions.

* Go strings are Lean `String`s (sequences of Unicode code points).
* A Go `error` value is a `GoError`: its message and whether `os.IsNotExist`
  holds of it.  `nil` is `none`.
* Calls that leave the program (file system, clock, random source, logger,
  crypto library) take their outcome from an `Env`, and every such call is
  recorded, in program order, as an `Event`.
* The file system is a map from files to contents.  A file is named by the
  string `Env.fileOf p` for any path `p` that leads to it once links are
  followed, so two paths name one file exactly when `fileOf` agrees on them.
* The Go types `int`, `int64` and `time.Duration` are `Int`s, wrapped explicitly with
  `wrapInt64` where the source does arithmetic on them.
-/

namespace CertRequest

/-! ## Basic data -/

/-- Byte slices, one natural number below 256 per byte. -/
abbrev Bytes := List Nat

/-- Go `error` values: the text of `Error()` and the verdict of `os.IsNotExist`. -/
structure GoError where
  msg : String
  notExist : Bool
deriving DecidableEq, Repr

/-- Go `errors.New`: a plain error, never a not-exist error. -/
def errorsNew (text : String) : GoError := ⟨text, false⟩

/-- Go `os.IsNotExist`. -/
def osIsNotExist (e : GoError) : Bool := e.notExist

/-- Go `unicode.IsSpace`: the Latin-1 space characters and the code points with
the White_Space property. -/
def isSpace (c : Char) : Bool :=
  let n := c.toNat
  n = 9 || n = 10 || n = 11 || n = 12 || n = 13 || n = 32 || n = 0x85 || n = 0xA0 ||
  n = 0x1680 || (0x2000 ≤ n && n ≤ 0x200A) || n = 0x2028 || n = 0x2029 ||
  n = 0x202F || n = 0x205F || n = 0x3000

/-- Go `strings.TrimSpace` on a list of code points: leading and trailing white
space removed. -/
def trimSpaceChars (cs : List Char) : List Char :=
  ((cs.dropWhile isSpace).reverse.dropWhile isSpace).reverse

/-- Go `strings.TrimSpace`. -/
def trimSpace (v : String) : String := String.mk (trimSpaceChars v.data)

/-! ## cliflag.go: `stringSlice` -/

/-- The source type `stringSlice`, a `[]string`. -/
abbrev stringSlice := List String

/-- The method `stringSlice.Set` (cliflag.go, lines 19-26): the value is
trimmed; an empty trimmed value leaves the receiver as it is; any other value
is appended.  The result is the receiver after the call and the returned
error, which is always `nil`. -/
def stringSlice.Set (a : stringSlice) (v : String) : stringSlice × Option GoError :=
  let v := trimSpace v
  if v = "" then
    (a, none)
  else
    (a ++ [v], none)

/-! ## The command line -/

/-- One occurrence of a flag on the command line, in the form in which
`flag.Parse` hands it to the variable of the flag: integer and boolean values
are already converted, string values are verbatim. -/
inductive FlagArg where
  | keySize (n : Int)
  | C (v : String)
  | O (v : String)
  | OU (v : String)
  | L (v : String)
  | ST (v : String)
  | CN (v : String)
  | dnsName (v : String)
  | pkcs1 (b : Bool)
  | selfSignValidDays (d : Int)
  | key (p : String)
  | req (p : String)
  | selfSign (p : String)
  | overwrite (b : Bool)
deriving DecidableEq, Repr

/-- The source constant `defaultKeySize`. -/
def defaultKeySize : Int := 2048

/-- The local variables of `parseCommandParameter` that are bound to flags
(cliflag.go, lines 65-90). -/
structure FlagVars where
  keySize : Int
  dnCountry : stringSlice
  dnOrganization : stringSlice
  dnOrganizationalUnit : stringSlice
  dnLocality : stringSlice
  dnProvince : stringSlice
  dnCommonName : String
  dnsNames : stringSlice
  keyPKCS1 : Bool
  selfSignedCertValidDays : Int
  keyPath : String
  certReqPath : String
  selfSignCertPath : String
  overwriteExisted : Bool
deriving DecidableEq, Repr

/-- The flag variables before `flag.Parse`: the defaults given at registration
(cliflag.go, lines 77-90); the `stringSlice` variables start out `nil`. -/
def flagDefaults : FlagVars where
  keySize := defaultKeySize
  dnCountry := []
  dnOrganization := []
  dnOrganizationalUnit := []
  dnLocality := []
  dnProvince := []
  dnCommonName := ""
  dnsNames := []
  keyPKCS1 := false
  selfSignedCertValidDays := 366
  keyPath := "cert-key.pem"
  certReqPath := "cert-req.pem"
  selfSignCertPath := "cert-selfsigned.pem"
  overwriteExisted := false

/-- The effect of one flag occurrence: a scalar flag stores the value, a flag
registered with `flag.Var` calls `stringSlice.Set` on its variable. -/
def flagSet (f : FlagVars) : FlagArg → FlagVars
  | .keySize n => { f with keySize := n }
  | .C v => { f with dnCountry := (stringSlice.Set f.dnCountry v).1 }
  | .O v => { f with dnOrganization := (stringSlice.Set f.dnOrganization v).1 }
  | .OU v => { f with dnOrganizationalUnit := (stringSlice.Set f.dnOrganizationalUnit v).1 }
  | .L v => { f with dnLocality := (stringSlice.Set f.dnLocality v).1 }
  | .ST v => { f with dnProvince := (stringSlice.Set f.dnProvince v).1 }
  | .CN v => { f with dnCommonName := v }
  | .dnsName v => { f with dnsNames := (stringSlice.Set f.dnsNames v).1 }
  | .pkcs1 b => { f with keyPKCS1 := b }
  | .selfSignValidDays d => { f with selfSignedCertValidDays := d }
  | .key p => { f with keyPath := p }
  | .req p => { f with certReqPath := p }
  | .selfSign p => { f with selfSignCertPath := p }
  | .overwrite b => { f with overwriteExisted := b }

/-- Go `flag.Parse` on a command line that parses: the occurrences take effect
from left to right, starting from the defaults.  (A command line that does not
parse ends the process inside `flag.Parse`.) -/
def flagParse (args : List FlagArg) : FlagVars := args.foldl flagSet flagDefaults

/-! ## Data handed to the crypto library -/

/-- Go `pkix.Name`, the fields the program sets; the others stay zero. -/
structure Name where
  Country : List String
  Organization : List String
  OrganizationalUnit : List String
  Locality : List String
  Province : List String
  CommonName : String
deriving DecidableEq, Repr

/-- The zero value of `pkix.Name`. -/
def Name.zero : Name := ⟨[], [], [], [], [], ""⟩

/-- Go `rsa.PublicKey`. -/
structure PublicKey where
  N : Nat
  E : Nat
deriving DecidableEq, Repr

/-- Go `rsa.PrivateKey`. -/
structure PrivateKey where
  PublicKey : PublicKey
  D : Nat
  Primes : List Nat
deriving DecidableEq, Repr

/-- Go `x509.CertificateRequest`, the fields the program sets. -/
structure CertificateRequest where
  Subject : Name
  DNSNames : List String
deriving DecidableEq, Repr

/-- Go `x509.Certificate`, the fields the program sets.  Times are nanoseconds
since the Unix epoch. -/
structure Certificate where
  SerialNumber : Int
  Subject : Name
  NotBefore : Int
  NotAfter : Int
  KeyUsage : Nat
  ExtKeyUsage : List Nat
  DNSNames : List String
deriving DecidableEq, Repr

/-- Go `pem.Block` without headers. -/
structure PEMBlock where
  type : String
  bytes : Bytes
deriving DecidableEq, Repr

/-- What a file holds.  `pem bs` is the PEM encoding of the blocks `bs` one
after the other (`pem []` is the empty file); `incomplete b` is what a failed
`pem.Encode` of `b` left behind; `raw` is any other content. -/
inductive FileContent where
  | raw (data : Bytes)
  | pem (blocks : List PEMBlock)
  | incomplete (blk : PEMBlock)
deriving DecidableEq, Repr

/-- The file system: the content of every file that exists.  The key is the
name of the file itself (what `Env.fileOf` gives for a path), not a path. -/
abbrev Files := String → Option FileContent

/-- The file system with the content of one file replaced. -/
def Files.write (fs : Files) (file : String) (c : FileContent) : Files :=
  fun q => if q = file then some c else fs q

/-- A call that leaves the program, with its arguments. -/
inductive Event where
  | filepathAbs (path : String)
  | osStat (path : String)
  | logPrintf (msg : String)
  | logPrint (msg : String)
  | logFatalf (msg : String)
  | rsaGenerateKey (bits : Int)
  | x509CreateCertificateRequest (tpl : CertificateRequest) (priv : PrivateKey)
  | x509CreateCertificate (tpl : Certificate) (parent : Certificate) (pub : PublicKey)
      (priv : PrivateKey)
  | osCreate (path : String)
  | pemEncode (path : String) (blk : PEMBlock)
deriving DecidableEq, Repr

/-- The outcomes of the calls that leave the program.

* `filepathAbs p` is the pair returned by `filepath.Abs(p)`.
* `fileOf p` is the file that the path `p` names once symbolic links, hard
  links and the case rules of the volume are taken into account, whether or
  not that file exists yet.
* `statFault p` is an error `os.Stat(p)` reports whatever the file system holds.
* `rsaGenerateKey bits` is the outcome of `rsa.GenerateKey(rand.Reader, bits)`.
* `marshalPKCS1`, `marshalPKCS8` are `x509.MarshalPKCS1PrivateKey` and
  `x509.MarshalPKCS8PrivateKey`.
* `x509CreateCertificateRequest`, `x509CreateCertificate` are the library
  calls of the same names, with `rand.Reader`.
* `osCreateFault fs p` is the error of `os.Create(p)` on file system `fs`, if any.
* `pemEncodeFault fs p b` is the error of `pem.Encode` of `b` into the file
  just created at `p`, if any.
* `clock i` is the reading of the `i`-th call of `time.Now()`, counted from 0. -/
structure Env where
  filepathAbs : String → String × Option GoError
  fileOf : String → String
  statFault : String → Option GoError
  rsaGenerateKey : Int → Except GoError PrivateKey
  marshalPKCS1 : PrivateKey → Bytes
  marshalPKCS8 : PrivateKey → Except GoError Bytes
  x509CreateCertificateRequest : CertificateRequest → PrivateKey → Except GoError Bytes
  x509CreateCertificate : Certificate → Certificate → PublicKey → PrivateKey →
    Except GoError Bytes
  osCreateFault : Files → String → Option GoError
  pemEncodeFault : Files → String → PEMBlock → Option GoError
  clock : Nat → Int

/-- Go `os.Stat`, its error result: a fault of the environment if there is
one, `nil` if the file that the path names exists, and a not-exist error
otherwise. -/
def osStat (env : Env) (fs : Files) (path : String) : Option GoError :=
  match env.statFault path with
  | some e => some e
  | none =>
    if (fs (env.fileOf path)).isSome then none
    else some ⟨"stat " ++ path ++ ": no such file or directory", true⟩

/-! ## cliflag.go: `prepareFilePath` and `parseCommandParameter` -/

/-- What `prepareFilePath` returns, with the calls it made. -/
structure PathResult where
  events : List Event
  absTargetPath : String
  err : Option GoError
deriving DecidableEq, Repr

/-- The function `prepareFilePath` (cliflag.go, lines 40-60). -/
def prepareFilePath (env : Env) (fs : Files) (usageText targetPath : String)
    (overwriteExisted : Bool) : PathResult :=
  let (absTargetPath, err) := env.filepathAbs targetPath
  let ev := [Event.filepathAbs targetPath]
  match err with
  | some e =>
    ⟨ev ++ [Event.logPrintf ("ERROR: cannot have absolute representation of given " ++
        usageText ++ " path [" ++ targetPath ++ "]: " ++ e.msg)], absTargetPath, some e⟩
  | none =>
    let ev := ev ++ [Event.osStat absTargetPath]
    match osStat env fs absTargetPath with
    | none =>
      if overwriteExisted then
        ⟨ev ++ [Event.logPrintf ("WARN: file existed at given " ++ usageText ++ " path: " ++
            absTargetPath)], absTargetPath, none⟩
      else
        ⟨ev ++ [Event.logPrintf ("ERROR: file existed at given " ++ usageText ++ " path: " ++
            absTargetPath)], absTargetPath,
          some (errorsNew ("file existed: [" ++ absTargetPath ++ "]"))⟩
    | some e =>
      if osIsNotExist e then
        ⟨ev, absTargetPath, none⟩
      else
        ⟨ev ++ [Event.logPrintf ("ERROR: cannot check existence of given " ++ usageText ++
            " path [" ++ absTargetPath ++ "]: " ++ e.msg)], absTargetPath, some e⟩

/-- The source variable `errRequireKeyPath`. -/
def errRequireKeyPath : GoError := errorsNew "path of private key is required"

/-- Go `int64` wrap-around: the representative of `x` modulo `2^64` in the
signed 64-bit range. -/
def wrapInt64 (x : Int) : Int := (x + 2 ^ 63) % 2 ^ 64 - 2 ^ 63

/-- Go `time.Hour`, in nanoseconds. -/
def timeHour : Int := 3600000000000

/-- The nine results of `parseCommandParameter`, with the calls it made. -/
structure Params where
  events : List Event
  keySize : Int
  subjectName : Name
  certDNSNames : List String
  keyPKCS1 : Bool
  selfSignedCertValidDuration : Int
  keyPath : String
  certReqPath : String
  selfSignCertPath : String
  err : Option GoError
deriving DecidableEq, Repr

/-- The part of `parseCommandParameter` after `flag.Parse` (cliflag.go, lines
92-123), on the flag variables `f`. -/
def resolveFlags (env : Env) (fs : Files) (f : FlagVars) : Params :=
  -- the named results as they stand after flag.Parse
  let r : Params :=
    { events := [], keySize := f.keySize, subjectName := Name.zero, certDNSNames := [],
      keyPKCS1 := f.keyPKCS1, selfSignedCertValidDuration := 0, keyPath := f.keyPath,
      certReqPath := f.certReqPath, selfSignCertPath := f.selfSignCertPath, err := none }
  if f.keyPath = "" then
    { r with err := some errRequireKeyPath }
  else
    let k := prepareFilePath env fs "private key" f.keyPath f.overwriteExisted
    let r := { r with events := k.events, keyPath := k.absTargetPath, err := k.err }
    match k.err with
    | some _ => r
    | none =>
      let q :=
        if f.certReqPath ≠ "" then
          prepareFilePath env fs "certificate request" f.certReqPath f.overwriteExisted
        else ⟨[], f.certReqPath, none⟩
      let r := { r with events := r.events ++ q.events, certReqPath := q.absTargetPath,
                        err := q.err }
      match q.err with
      | some _ => r
      | none =>
        let c :=
          if f.selfSignCertPath ≠ "" then
            prepareFilePath env fs "self-signed certificate" f.selfSignCertPath
              f.overwriteExisted
          else ⟨[], f.selfSignCertPath, none⟩
        let r := { r with events := r.events ++ c.events, selfSignCertPath := c.absTargetPath,
                          err := c.err }
        match c.err with
        | some _ => r
        | none =>
          let dnCommonName :=
            if f.dnCommonName = "" ∧ f.dnsNames.length > 0 then f.dnsNames.headD ""
            else f.dnCommonName
          { r with
            subjectName :=
              { Country := f.dnCountry, Organization := f.dnOrganization,
                OrganizationalUnit := f.dnOrganizationalUnit, Locality := f.dnLocality,
                Province := f.dnProvince, CommonName := dnCommonName }
            certDNSNames := f.dnsNames
            selfSignedCertValidDuration :=
              wrapInt64 (timeHour * 24 * wrapInt64 f.selfSignedCertValidDays) }

/-- The function `parseCommandParameter` (cliflag.go, lines 64-123) on a
command line that parses. -/
def parseCommandParameter (env : Env) (fs : Files) (args : List FlagArg) : Params :=
  resolveFlags env fs (flagParse args)

/-! ## main.go -/

/-- What a writing step returns: the calls it made, the file system it leaves,
and its error. -/
structure WriteResult where
  events : List Event
  files : Files
  err : Option GoError

/-- The function `writePEMFile` (main.go, lines 15-31).  `os.Create` creates
or truncates the file that the path names; `pem.Encode` then writes the block
into it. -/
def writePEMFile (env : Env) (fs : Files) (destFilePath blockType : String)
    (contentBuffer : Bytes) : WriteResult :=
  let blk : PEMBlock := { type := blockType, bytes := contentBuffer }
  match env.osCreateFault fs destFilePath with
  | some e =>
    ⟨[Event.osCreate destFilePath,
      Event.logPrintf ("ERROR: cannot open " ++ blockType ++ " file for writing [" ++
        destFilePath ++ "]: " ++ e.msg)], fs, some e⟩
  | none =>
    let fs1 := fs.write (env.fileOf destFilePath) (FileContent.pem [])
    match env.pemEncodeFault fs1 destFilePath blk with
    | some e =>
      ⟨[Event.osCreate destFilePath, Event.pemEncode destFilePath blk,
        Event.logPrintf ("ERROR: cannot pack " ++ blockType ++ " PEM info file: " ++ e.msg)],
        fs1.write (env.fileOf destFilePath) (FileContent.incomplete blk), some e⟩
    | none =>
      ⟨[Event.osCreate destFilePath, Event.pemEncode destFilePath blk],
        fs1.write (env.fileOf destFilePath) (FileContent.pem [blk]), none⟩

/-- What `createPrivateKey` returns (the key pointer is `none` when `nil`),
with the calls it made and the file system it leaves. -/
structure KeyResult where
  events : List Event
  files : Files
  privKey : Option PrivateKey
  err : Option GoError

/-- The function `createPrivateKey` (main.go, lines 33-50). -/
def createPrivateKey (env : Env) (fs : Files) (keyPath : String) (keySize : Int)
    (keyPKCS1 : Bool) : KeyResult :=
  match env.rsaGenerateKey keySize with
  | .error e =>
    ⟨[Event.rsaGenerateKey keySize,
      Event.logPrintf ("ERROR: cannot generate private key: " ++ e.msg)], fs, none, some e⟩
  | .ok privKey =>
    if keyPKCS1 then
      let buf := env.marshalPKCS1 privKey
      let w := writePEMFile env fs keyPath "RSA PRIVATE KEY" buf
      ⟨Event.rsaGenerateKey keySize :: w.events, w.files, some privKey, w.err⟩
    else
      match env.marshalPKCS8 privKey with
      | .error e =>
        ⟨[Event.rsaGenerateKey keySize,
          Event.logPrintf ("ERROR: cannot marshal provate key into PKCS#8 DER form: " ++
            e.msg)], fs, some privKey, some e⟩
      | .ok buf =>
        let w := writePEMFile env fs keyPath "PRIVATE KEY" buf
        ⟨Event.rsaGenerateKey keySize :: w.events, w.files, some privKey, w.err⟩

/-- The function `createCertificateRequest` (main.go, lines 52-63). -/
def createCertificateRequest (env : Env) (fs : Files) (certReqPath : String)
    (subjectName : Name) (certDNSNames : List String) (privKey : PrivateKey) : WriteResult :=
  let tpl : CertificateRequest := { Subject := subjectName, DNSNames := certDNSNames }
  match env.x509CreateCertificateRequest tpl privKey with
  | .error e =>
    ⟨[Event.x509CreateCertificateRequest tpl privKey,
      Event.logPrintf ("ERROR: cannot generate certificate request: " ++ e.msg)], fs, some e⟩
  | .ok csrBuf =>
    let w := writePEMFile env fs certReqPath "CERTIFICATE REQUEST" csrBuf
    ⟨Event.x509CreateCertificateRequest tpl privKey :: w.events, w.files, w.err⟩

/-- Go `KeyUsageDigitalSignature`. -/
def KeyUsageDigitalSignature : Nat := 1
/-- Go `KeyUsageKeyEncipherment`. -/
def KeyUsageKeyEncipherment : Nat := 4
/-- Go `KeyUsageCertSign`. -/
def KeyUsageCertSign : Nat := 32
/-- Go `ExtKeyUsageServerAuth`. -/
def ExtKeyUsageServerAuth : Nat := 1

/-- Go `Time.UnixNano` of a time given in nanoseconds since the Unix epoch:
the `int64` of that number. -/
def unixNano (t : Int) : Int := wrapInt64 t

/-- Go `Time.Add`: the instant `d` nanoseconds after `t`.  (Go keeps the
seconds of a `Time` in 64 bits and saturates outside that range, which no
`int64` nanosecond count reaches; the sum is taken exactly.) -/
def timeAdd (t : Int) (d : Int) : Int := t + d

/-- The certificate template `certTpl` of `createSelfSignedCertificate`
(main.go, lines 66-74), when `tick` calls of `time.Now()` came before it.  The
three fields that read the clock do so in source order, one call each. -/
def certTemplate (env : Env) (tick : Nat) (subjectName : Name) (certDNSNames : List String)
    (selfSignedCertValidDuration : Int) : Certificate where
  SerialNumber := unixNano (env.clock tick)
  Subject := subjectName
  NotBefore := env.clock (tick + 1)
  NotAfter := timeAdd (env.clock (tick + 2)) selfSignedCertValidDuration
  KeyUsage := KeyUsageDigitalSignature ||| KeyUsageCertSign ||| KeyUsageKeyEncipherment
  ExtKeyUsage := [ExtKeyUsageServerAuth]
  DNSNames := certDNSNames

/-- The function `createSelfSignedCertificate` (main.go, lines 65-82), when
`tick` calls of `time.Now()` came before it. -/
def createSelfSignedCertificate (env : Env) (fs : Files) (tick : Nat)
    (selfSignCertPath : String) (subjectName : Name) (certDNSNames : List String)
    (selfSignedCertValidDuration : Int) (privKey : PrivateKey) : WriteResult :=
  let certTpl := certTemplate env tick subjectName certDNSNames selfSignedCertValidDuration
  match env.x509CreateCertificate certTpl certTpl privKey.PublicKey privKey with
  | .error e =>
    ⟨[Event.x509CreateCertificate certTpl certTpl privKey.PublicKey privKey,
      Event.logPrintf ("ERROR: cannot generate self-signed certificate: " ++ e.msg)],
      fs, some e⟩
  | .ok cerBuf =>
    let w := writePEMFile env fs selfSignCertPath "CERTIFICATE" cerBuf
    ⟨Event.x509CreateCertificate certTpl certTpl privKey.PublicKey privKey :: w.events,
      w.files, w.err⟩

/-- A finished run: the calls made, the file system left, the exit status. -/
structure MainResult where
  events : List Event
  files : Files
  exitCode : Nat

/-- The self-signed certificate step of `main` (main.go, lines 105-113), after
the calls `ev`. -/
def mainSelfSign (env : Env) (fs : Files) (ev : List Event) (p : Params)
    (privKey : PrivateKey) : MainResult :=
  if p.selfSignCertPath ≠ "" then
    let c := createSelfSignedCertificate env fs 0 p.selfSignCertPath p.subjectName
      p.certDNSNames p.selfSignedCertValidDuration privKey
    match c.err with
    | some e =>
      ⟨ev ++ c.events ++
        [Event.logFatalf ("ERROR: failed on setting up self-signed certificate: " ++ e.msg)],
        c.files, 1⟩
    | none =>
      ⟨ev ++ c.events ++
        [Event.logPrintf ("INFO: generated self-signed certificate: [" ++
          p.selfSignCertPath ++ "]")], c.files, 0⟩
  else
    ⟨ev ++ [Event.logPrint "INFO: skip self-signed certificate generation."], fs, 0⟩

/-- The certificate request step of `main` and what follows it (main.go, lines
96-113), after the calls `ev`. -/
def mainCertReq (env : Env) (fs : Files) (ev : List Event) (p : Params)
    (privKey : PrivateKey) : MainResult :=
  if p.certReqPath ≠ "" then
    let q := createCertificateRequest env fs p.certReqPath p.subjectName p.certDNSNames privKey
    match q.err with
    | some e =>
      ⟨ev ++ q.events ++
        [Event.logFatalf ("ERROR: failed on setting up certificate request: " ++ e.msg)],
        q.files, 1⟩
    | none =>
      mainSelfSign env q.files
        (ev ++ q.events ++
          [Event.logPrintf ("INFO: generated certificate request: [" ++ p.certReqPath ++ "]")])
        p privKey
  else
    mainSelfSign env fs (ev ++ [Event.logPrint "INFO: skip certificate request generation."])
      p privKey

/-- The function `main` (main.go, lines 84-114) on a command line that parses,
started on the file system `fs`.  `log.Fatalf` ends the process with status 1.
A `nil` key together with a `nil` error, which `createPrivateKey` never
returns, is the nil dereference of Go: status 2. -/
def main (env : Env) (fs : Files) (args : List FlagArg) : MainResult :=
  let p := parseCommandParameter env fs args
  match p.err with
  | some e =>
    ⟨p.events ++ [Event.logFatalf ("cannot have valid command options: " ++ e.msg)], fs, 1⟩
  | none =>
    let k := createPrivateKey env fs p.keyPath p.keySize p.keyPKCS1
    match k.err with
    | some e =>
      ⟨p.events ++ k.events ++
        [Event.logFatalf ("ERROR: failed on setting up private key: " ++ e.msg)], k.files, 1⟩
    | none =>
      match k.privKey with
      | none => ⟨p.events ++ k.events, k.files, 2⟩
      | some privKey =>
        mainCertReq env k.files
          (p.events ++ k.events ++
            [Event.logPrintf ("INFO: generated private key: [" ++ p.keyPath ++ "]")])
          p privKey

/-! ## Observations on runs -/

/-- Whether an event is the call that builds a certificate request. -/
def Event.isCertReqCall : Event → Bool
  | .x509CreateCertificateRequest _ _ => true
  | _ => false

/-- Whether an event is the call that builds a certificate. -/
def Event.isCertCall : Event → Bool
  | .x509CreateCertificate _ _ _ _ => true
  | _ => false

/-- Whether an event creates, truncates or writes a file. -/
def Event.isFileWrite : Event → Bool
  | .osCreate _ => true
  | .pemEncode _ _ => true
  | _ => false

/-! ## Concrete environments, used to evaluate the program -/

/-- A small private key. -/
def sampleKey : PrivateKey := ⟨⟨3233, 17⟩, 2753, [61, 53]⟩

/-- An environment in which every call succeeds; relative paths resolve under
`/work/`, every path names a file of its own, and the clock advances by one
nanosecond per reading. -/
def envOK : Env where
  filepathAbs := fun p => ("/work/" ++ p, none)
  fileOf := fun p => p
  statFault := fun _ => none
  rsaGenerateKey := fun _ => .ok sampleKey
  marshalPKCS1 := fun _ => [48, 1]
  marshalPKCS8 := fun _ => .ok [48, 8]
  x509CreateCertificateRequest := fun _ _ => .ok [48, 10]
  x509CreateCertificate := fun _ _ _ _ => .ok [48, 5, 9]
  osCreateFault := fun _ _ => none
  pemEncodeFault := fun _ _ _ => none
  clock := fun i => 1700000000000000000 + i

/-- The file system with no files. -/
def noFiles : Files := fun _ => none

/-- A file system in which the default key path already holds a file. -/
def oldKeyFiles : Files := Files.write noFiles "/work/cert-key.pem" (FileContent.raw [45, 45])

/-- As `envOK`, but the library fails to build a certificate request. -/
def envRequestFails : Env :=
  { envOK with
    x509CreateCertificateRequest := fun _ _ => .error ⟨"x509: request failed", false⟩ }

/-- As `envOK`, but `pem.Encode` of a "CERTIFICATE REQUEST" block fails. -/
def envRequestWriteFails : Env :=
  { envOK with
    pemEncodeFault := fun _ _ blk =>
      if blk.type = "CERTIFICATE REQUEST" then some ⟨"write: no space left on device", false⟩
      else none }

/-- As `envOK`, but `os.Create` fails, as for a path in a missing directory. -/
def envNoCreate : Env :=
  { envOK with
    osCreateFault := fun _ _ => some ⟨"open: no such file or directory", true⟩ }

/-- As `envRequestWriteFails`, and `/work/link.pem` is a symbolic link to
`/work/cert-key.pem`. -/
def envLinkedRequest : Env :=
  { envRequestWriteFails with
    fileOf := fun p => if p = "/work/link.pem" then "/work/cert-key.pem" else p }

/-- As `envOK`, but the clock stands still. -/
def envFrozenClock : Env :=
  { envOK with clock := fun _ => 1700000000000000000 }

/-! ## Options -/

/-- An option that is not `none` is `some` value. -/
theorem exists_of_ne_none {α : Type} {o : Option α} (h : o ≠ none) : ∃ e, o = some e := by
  cases o with
  | none => exact absurd rfl h
  | some e => exact ⟨e, rfl⟩

/-! ## Arithmetic of `int64` -/

/-- Inside the signed 64-bit range `wrapInt64` changes nothing. -/
theorem wrapInt64_of_range (x : Int) (hlo : -9223372036854775808 ≤ x)
    (hhi : x ≤ 9223372036854775807) : wrapInt64 x = x := by
  unfold wrapInt64
  norm_num
  omega

/-- Wrapping a factor before a multiplication does not change the wrapped
product. -/
theorem wrapInt64_mul_wrap (a x : Int) : wrapInt64 (a * wrapInt64 x) = wrapInt64 (a * x) := by
  unfold wrapInt64
  have h : (a * ((x + 2 ^ 63) % 2 ^ 64 - 2 ^ 63) + 2 ^ 63) % 2 ^ 64
      = (a * x + 2 ^ 63) % 2 ^ 64 := by
    have e : a * ((x + 2 ^ 63) % 2 ^ 64 - 2 ^ 63) + 2 ^ 63
        = (a * x + 2 ^ 63) + (-(a * ((x + 2 ^ 63) / 2 ^ 64))) * 2 ^ 64 := by
      have e2 : (x + 2 ^ 63) % 2 ^ 64 = (x + 2 ^ 63) - 2 ^ 64 * ((x + 2 ^ 63) / 2 ^ 64) := by
        have := Int.emod_add_ediv (x + 2 ^ 63) (2 ^ 64)
        linarith
      rw [e2]; ring
    rw [e, Int.add_mul_emod_self]
  rw [h]

/-! ## `stringSlice.Set` -/

/-- `Set` with a value that is empty after trimming changes nothing. -/
theorem stringSlice_Set_blank (a : stringSlice) (v : String) (h : trimSpace v = "") :
    stringSlice.Set a v = (a, none) := by
  simp [stringSlice.Set, h]

/-- C9, as amended: for every list `a` and every value `v` whose trimmed form
is not empty, `Set v` appends exactly the trimmed value: the list grows by one,
its first `len(a)` elements are those of `a` in the same order, its last
element is the trimmed `v`, and no error is returned. -/
theorem stringSlice_Set_appends (a : stringSlice) (v : String) (h : trimSpace v ≠ "") :
    (stringSlice.Set a v).1.length = a.length + 1 ∧
    (stringSlice.Set a v).1.take a.length = a ∧
    (stringSlice.Set a v).1 = a ++ [trimSpace v] ∧
    (stringSlice.Set a v).2 = none := by
  simp [stringSlice.Set, h]

/-- Witness for C9, as amended: a padded country code after one entry. -/
theorem stringSlice_Set_appends_witness :
    trimSpace " TW " ≠ "" ∧
    ((stringSlice.Set ["US"] " TW ").1.length = ["US"].length + 1 ∧
     (stringSlice.Set ["US"] " TW ").1.take ["US"].length = ["US"] ∧
     (stringSlice.Set ["US"] " TW ").1 = ["US"] ++ [trimSpace " TW "] ∧
     (stringSlice.Set ["US"] " TW ").2 = none) :=
  ⟨by decide, stringSlice_Set_appends ["US"] " TW " (by decide)⟩

/-- C9 as stated fails: `Set` with the empty value (as in `-C ""`) leaves a
one-element list at length one, not two. -/
theorem stringSlice_Set_empty_value_not_appended :
    (stringSlice.Set ["US"] "").1 = ["US"] ∧
    ¬ ((stringSlice.Set ["US"] "").1.length = ["US"].length + 1) := by
  decide

/-! ## `prepareFilePath` -/

/-- C1: when the absolute form of the target path resolves to `abs`,
`prepareFilePath` stats `abs` and decides by the outcome: the path exists and
overwrite is off, it returns the error "file existed"; the path exists and
overwrite is on, it returns `abs` and no error; stat reports not-exist, it
returns `abs` and no error; stat fails otherwise, it returns that error. -/
theorem prepareFilePath_by_stat_outcome (env : Env) (fs : Files)
    (usageText targetPath abs : String) (overwriteExisted : Bool)
    (habs : env.filepathAbs targetPath = (abs, none)) :
    Event.osStat abs ∈ (prepareFilePath env fs usageText targetPath overwriteExisted).events ∧
    (osStat env fs abs = none → overwriteExisted = false →
      (prepareFilePath env fs usageText targetPath overwriteExisted).err
        = some (errorsNew ("file existed: [" ++ abs ++ "]"))) ∧
    (osStat env fs abs = none → overwriteExisted = true →
      (prepareFilePath env fs usageText targetPath overwriteExisted).absTargetPath = abs ∧
      (prepareFilePath env fs usageText targetPath overwriteExisted).err = none) ∧
    (∀ e, osStat env fs abs = some e → osIsNotExist e = true →
      (prepareFilePath env fs usageText targetPath overwriteExisted).absTargetPath = abs ∧
      (prepareFilePath env fs usageText targetPath overwriteExisted).err = none) ∧
    (∀ e, osStat env fs abs = some e → osIsNotExist e = false →
      (prepareFilePath env fs usageText targetPath overwriteExisted).err = some e) := by
  unfold prepareFilePath
  rw [habs]
  cases hs : osStat env fs abs with
  | none => cases overwriteExisted <;> simp [hs]
  | some e => cases hn : osIsNotExist e <;> simp [hs, hn]

/-! ## Events of the configuration phase -/

/-- The calls of `prepareFilePath` are path resolutions, stats and log lines:
none touches a file or the crypto library. -/
theorem prepareFilePath_events (env : Env) (fs : Files) (usageText targetPath : String)
    (overwriteExisted : Bool) :
    ∀ e ∈ (prepareFilePath env fs usageText targetPath overwriteExisted).events,
      e.isFileWrite = false ∧ e.isCertReqCall = false ∧ e.isCertCall = false ∧
      ∀ n, e ≠ Event.rsaGenerateKey n := by
  unfold prepareFilePath
  rcases h1 : env.filepathAbs targetPath with ⟨abs, _ | e1⟩
  · cases hs : osStat env fs abs with
    | none =>
      cases overwriteExisted <;>
        simp [hs, Event.isFileWrite, Event.isCertReqCall, Event.isCertCall]
    | some e =>
      cases hn : osIsNotExist e <;>
        simp [hs, hn, Event.isFileWrite, Event.isCertReqCall, Event.isCertCall]
  · simp [Event.isFileWrite, Event.isCertReqCall, Event.isCertCall]

/-- The calls of `resolveFlags` are those of its `prepareFilePath` calls. -/
theorem resolveFlags_events (env : Env) (fs : Files) (f : FlagVars) :
    ∀ e ∈ (resolveFlags env fs f).events,
      e.isFileWrite = false ∧ e.isCertReqCall = false ∧ e.isCertCall = false ∧
      ∀ n, e ≠ Event.rsaGenerateKey n := by
  have hk := prepareFilePath_events env fs "private key" f.keyPath f.overwriteExisted
  have hq := prepareFilePath_events env fs "certificate request" f.certReqPath
    f.overwriteExisted
  have hc := prepareFilePath_events env fs "self-signed certificate" f.selfSignCertPath
    f.overwriteExisted
  intro e he
  unfold resolveFlags at he
  by_cases h1 : f.keyPath = "" <;> by_cases h2 : f.certReqPath = "" <;>
    by_cases h3 : f.selfSignCertPath = "" <;>
    cases hke : (prepareFilePath env fs "private key" f.keyPath f.overwriteExisted).err <;>
    cases hqe : (prepareFilePath env fs "certificate request" f.certReqPath
      f.overwriteExisted).err <;>
    cases hce : (prepareFilePath env fs "self-signed certificate" f.selfSignCertPath
      f.overwriteExisted).err <;>
    simp [h1, h2, h3, hke, hqe, hce] at he <;>
    first
      | exact hk e he
      | (rcases he with he | he | he <;> first | exact hk e he | exact hq e he | exact hc e he)
      | (rcases he with he | he <;> first | exact hk e he | exact hq e he | exact hc e he)

/-! ## `parseCommandParameter` -/

/-- The results of `resolveFlags` when it returns no error. -/
theorem resolveFlags_ok (env : Env) (fs : Files) (f : FlagVars)
    (h : (resolveFlags env fs f).err = none) :
    f.keyPath ≠ "" ∧
    (prepareFilePath env fs "private key" f.keyPath f.overwriteExisted).err = none ∧
    (f.certReqPath ≠ "" →
      (prepareFilePath env fs "certificate request" f.certReqPath
        f.overwriteExisted).err = none) ∧
    (f.selfSignCertPath ≠ "" →
      (prepareFilePath env fs "self-signed certificate" f.selfSignCertPath
        f.overwriteExisted).err = none) ∧
    (resolveFlags env fs f).keyPath =
      (prepareFilePath env fs "private key" f.keyPath f.overwriteExisted).absTargetPath ∧
    (resolveFlags env fs f).certReqPath =
      (if f.certReqPath = "" then ""
       else (prepareFilePath env fs "certificate request" f.certReqPath
        f.overwriteExisted).absTargetPath) ∧
    (resolveFlags env fs f).selfSignCertPath =
      (if f.selfSignCertPath = "" then ""
       else (prepareFilePath env fs "self-signed certificate" f.selfSignCertPath
        f.overwriteExisted).absTargetPath) ∧
    (resolveFlags env fs f).subjectName =
      { Country := f.dnCountry, Organization := f.dnOrganization,
        OrganizationalUnit := f.dnOrganizationalUnit, Locality := f.dnLocality,
        Province := f.dnProvince,
        CommonName := if f.dnCommonName = "" then f.dnsNames.headD "" else f.dnCommonName } ∧
    (resolveFlags env fs f).certDNSNames = f.dnsNames ∧
    (resolveFlags env fs f).keySize = f.keySize ∧
    (resolveFlags env fs f).keyPKCS1 = f.keyPKCS1 ∧
    (resolveFlags env fs f).selfSignedCertValidDuration =
      wrapInt64 (timeHour * 24 * wrapInt64 f.selfSignedCertValidDays) := by
  unfold resolveFlags at h ⊢
  by_cases h1 : f.keyPath = "" <;> by_cases h2 : f.certReqPath = "" <;>
    by_cases h3 : f.selfSignCertPath = "" <;>
    by_cases h4 : f.dnCommonName = "" <;>
    cases hk : (prepareFilePath env fs "private key" f.keyPath f.overwriteExisted).err <;>
    cases hq : (prepareFilePath env fs "certificate request" f.certReqPath
      f.overwriteExisted).err <;>
    cases hc : (prepareFilePath env fs "self-signed certificate" f.selfSignCertPath
      f.overwriteExisted).err <;>
    simp_all [errRequireKeyPath]

/-- C2: `parseCommandParameter` returns an error exactly when the `-key` value
is empty or `prepareFilePath` fails for the key path, for a non-empty `-req`
path or for a non-empty `-selfSign` path.  With an empty key the error is
`errRequireKeyPath` and no call is made.  The checks run in the order key,
request, self-signed certificate and stop at the first failure, whose error is
returned.  An empty `-req` or `-selfSign` path is not checked and is returned
empty. -/
theorem parseCommandParameter_error_iff (env : Env) (fs : Files) (args : List FlagArg)
    (f : FlagVars) (k q c : PathResult) (hf : flagParse args = f)
    (hk : prepareFilePath env fs "private key" f.keyPath f.overwriteExisted = k)
    (hq : prepareFilePath env fs "certificate request" f.certReqPath f.overwriteExisted = q)
    (hc : prepareFilePath env fs "self-signed certificate" f.selfSignCertPath
      f.overwriteExisted = c) :
    ((parseCommandParameter env fs args).err ≠ none ↔
      f.keyPath = "" ∨ k.err ≠ none ∨ (f.certReqPath ≠ "" ∧ q.err ≠ none) ∨
        (f.selfSignCertPath ≠ "" ∧ c.err ≠ none)) ∧
    (f.keyPath = "" →
      (parseCommandParameter env fs args).err = some errRequireKeyPath ∧
      (parseCommandParameter env fs args).events = []) ∧
    (f.keyPath ≠ "" → k.err ≠ none →
      (parseCommandParameter env fs args).err = k.err ∧
      (parseCommandParameter env fs args).events = k.events) ∧
    (f.keyPath ≠ "" → k.err = none → f.certReqPath ≠ "" → q.err ≠ none →
      (parseCommandParameter env fs args).err = q.err ∧
      (parseCommandParameter env fs args).events = k.events ++ q.events) ∧
    (f.keyPath ≠ "" → k.err = none → (f.certReqPath = "" ∨ q.err = none) →
      f.selfSignCertPath ≠ "" → c.err ≠ none →
      (parseCommandParameter env fs args).err = c.err ∧
      (parseCommandParameter env fs args).events
        = k.events ++ (if f.certReqPath = "" then [] else q.events) ++ c.events) ∧
    ((parseCommandParameter env fs args).err = none →
      (parseCommandParameter env fs args).events
        = k.events ++ (if f.certReqPath = "" then [] else q.events) ++
            (if f.selfSignCertPath = "" then [] else c.events)) ∧
    (f.certReqPath = "" → (parseCommandParameter env fs args).certReqPath = "") ∧
    (f.selfSignCertPath = "" → (parseCommandParameter env fs args).selfSignCertPath = "") := by
  subst hf hk hq hc
  unfold parseCommandParameter resolveFlags
  generalize flagParse args = f
  by_cases h1 : f.keyPath = "" <;> by_cases h2 : f.certReqPath = "" <;>
    by_cases h3 : f.selfSignCertPath = "" <;>
    cases hk : (prepareFilePath env fs "private key" f.keyPath f.overwriteExisted).err <;>
    cases hq : (prepareFilePath env fs "certificate request" f.certReqPath
      f.overwriteExisted).err <;>
    cases hc : (prepareFilePath env fs "self-signed certificate" f.selfSignCertPath
      f.overwriteExisted).err <;>
    simp_all [errRequireKeyPath]

/-- The list that the occurrences of `-dnsName` accumulate, from any start. -/
theorem foldl_flagSet_dnsNames (args : List FlagArg) (f : FlagVars) :
    (args.foldl flagSet f).dnsNames =
      f.dnsNames ++ (args.filterMap (fun a =>
        match a with
        | .dnsName v => if trimSpace v = "" then none else some (trimSpace v)
        | _ => none)) := by
  induction args generalizing f with
  | nil => simp
  | cons a as ih =>
    rw [List.foldl_cons, ih]
    cases a <;> simp [flagSet, stringSlice.Set]
    split <;> simp_all

/-! ## The writing steps -/

/-- Writing a file leaves every other file as it was. -/
theorem Files.write_other (fs : Files) (file q : String) (c : FileContent) (h : q ≠ file) :
    Files.write fs file c q = fs q := by
  simp [Files.write, h]

/-- Writing a file stores the content there. -/
theorem Files.write_same (fs : Files) (file : String) (c : FileContent) :
    Files.write fs file c file = some c := by
  simp [Files.write]

/-- The outcomes of `writePEMFile`: it touches no file but the one that its
destination names; it returns no error exactly when neither `os.Create` nor
`pem.Encode` fails, and then that file holds exactly the one block; its calls
are one `os.Create` of the destination followed by at most one `pem.Encode`
and a log line. -/
theorem writePEMFile_spec (env : Env) (fs : Files) (dest blockType : String)
    (content : Bytes) :
    (∀ q, q ≠ env.fileOf dest →
      (writePEMFile env fs dest blockType content).files q = fs q) ∧
    ((writePEMFile env fs dest blockType content).err = none →
      (writePEMFile env fs dest blockType content).files (env.fileOf dest)
        = some (FileContent.pem [⟨blockType, content⟩]) ∧
      (writePEMFile env fs dest blockType content).events
        = [Event.osCreate dest, Event.pemEncode dest ⟨blockType, content⟩]) ∧
    ((writePEMFile env fs dest blockType content).err = none ↔
      env.osCreateFault fs dest = none ∧
      env.pemEncodeFault (Files.write fs (env.fileOf dest) (FileContent.pem [])) dest
        ⟨blockType, content⟩ = none) ∧
    (env.osCreateFault fs dest ≠ none →
      (writePEMFile env fs dest blockType content).files = fs) ∧
    (∀ e ∈ (writePEMFile env fs dest blockType content).events,
      e.isCertReqCall = false ∧ e.isCertCall = false ∧
      (∀ p, e = Event.osCreate p → p = dest) ∧ (∀ p b, e = Event.pemEncode p b → p = dest)) := by
  unfold writePEMFile
  cases h1 : env.osCreateFault fs dest with
  | some e => simp [Event.isCertReqCall, Event.isCertCall]
  | none =>
    cases h2 : env.pemEncodeFault (Files.write fs (env.fileOf dest) (FileContent.pem []))
        dest ⟨blockType, content⟩ with
    | some e =>
      simp [h2, Event.isCertReqCall, Event.isCertCall]
      intro q hq
      simp [Files.write, hq]
    | none =>
      simp [h2, Event.isCertReqCall, Event.isCertCall]
      refine ⟨?_, ?_⟩
      · intro q hq
        simp [Files.write, hq]
      · simp [Files.write]

/-- Facts about `createPrivateKey` used for `main`: a run without error
returns a key, every file but the one that the key path names is left alone,
and its calls are the key generation and the calls of one `writePEMFile` on
the key path. -/
theorem createPrivateKey_frame (env : Env) (fs : Files) (keyPath : String) (keySize : Int)
    (keyPKCS1 : Bool) :
    ((createPrivateKey env fs keyPath keySize keyPKCS1).err = none →
      ∃ key, (createPrivateKey env fs keyPath keySize keyPKCS1).privKey = some key ∧
        env.rsaGenerateKey keySize = .ok key) ∧
    (∀ q, q ≠ env.fileOf keyPath →
      (createPrivateKey env fs keyPath keySize keyPKCS1).files q = fs q) ∧
    (∀ e ∈ (createPrivateKey env fs keyPath keySize keyPKCS1).events,
      e.isCertReqCall = false ∧ e.isCertCall = false ∧
      (∀ p, e = Event.osCreate p → p = keyPath) ∧
      (∀ p b, e = Event.pemEncode p b → p = keyPath)) := by
  unfold createPrivateKey
  cases hg : env.rsaGenerateKey keySize with
  | error e => simp [Event.isCertReqCall, Event.isCertCall]
  | ok key =>
    cases keyPKCS1 with
    | true =>
      have hw := writePEMFile_spec env fs keyPath "RSA PRIVATE KEY" (env.marshalPKCS1 key)
      simp only [if_true]
      refine ⟨fun _ => ⟨key, rfl, rfl⟩, hw.1, ?_⟩
      intro e he
      rcases List.mem_cons.1 he with rfl | he
      · simp [Event.isCertReqCall, Event.isCertCall]
      · exact hw.2.2.2.2 e he
    | false =>
      cases h8 : env.marshalPKCS8 key with
      | error e => simp [h8, Event.isCertReqCall, Event.isCertCall]
      | ok buf =>
        have hw := writePEMFile_spec env fs keyPath "PRIVATE KEY" buf
        simp only [h8, Bool.false_eq_true, if_false]
        refine ⟨fun _ => ⟨key, rfl, rfl⟩, hw.1, ?_⟩
        intro e he
        rcases List.mem_cons.1 he with rfl | he
        · simp [Event.isCertReqCall, Event.isCertCall]
        · exact hw.2.2.2.2 e he

/-- Facts about `createCertificateRequest`: it touches no file but the one
that its path names; without error that file holds exactly one
"CERTIFICATE REQUEST" block with the
bytes the library returned; its first call is the library call on the given
subject, DNS names and key, and it makes no certificate call. -/
theorem createCertificateRequest_spec (env : Env) (fs : Files) (path : String)
    (subjectName : Name) (certDNSNames : List String) (key : PrivateKey) :
    (∀ q, q ≠ env.fileOf path →
      (createCertificateRequest env fs path subjectName certDNSNames key).files q = fs q) ∧
    ((createCertificateRequest env fs path subjectName certDNSNames key).err = none →
      ∃ csr, env.x509CreateCertificateRequest ⟨subjectName, certDNSNames⟩ key = .ok csr ∧
        (createCertificateRequest env fs path subjectName certDNSNames key).files
            (env.fileOf path)
          = some (FileContent.pem [⟨"CERTIFICATE REQUEST", csr⟩]) ∧
        (createCertificateRequest env fs path subjectName certDNSNames key).events
          = [Event.x509CreateCertificateRequest ⟨subjectName, certDNSNames⟩ key,
             Event.osCreate path, Event.pemEncode path ⟨"CERTIFICATE REQUEST", csr⟩]) ∧
    (Event.x509CreateCertificateRequest ⟨subjectName, certDNSNames⟩ key ∈
      (createCertificateRequest env fs path subjectName certDNSNames key).events) ∧
    (∀ e ∈ (createCertificateRequest env fs path subjectName certDNSNames key).events,
      e.isCertCall = false ∧
      (∀ tpl k, e = Event.x509CreateCertificateRequest tpl k →
        tpl = ⟨subjectName, certDNSNames⟩ ∧ k = key) ∧
      (∀ p, e = Event.osCreate p → p = path)) := by
  unfold createCertificateRequest
  cases hg : env.x509CreateCertificateRequest ⟨subjectName, certDNSNames⟩ key with
  | error e => simp [hg, Event.isCertCall]
  | ok csr =>
    have hw := writePEMFile_spec env fs path "CERTIFICATE REQUEST" csr
    simp only [hg]
    refine ⟨hw.1, ?_, by simp, ?_⟩
    · intro h
      have h2 := hw.2.1 h
      exact ⟨csr, rfl, h2.1, by simp [h2.2]⟩
    · intro e he
      rcases List.mem_cons.1 he with rfl | he
      · simp [Event.isCertCall]
      · have h3 := hw.2.2.2.2 e he
        refine ⟨h3.2.1, ?_, h3.2.2.1⟩
        intro tpl k hek
        have := h3.1
        simp [hek, Event.isCertReqCall] at this

/-- Facts about `createSelfSignedCertificate`: it touches no file but the one
that its path names; without error that file holds exactly one "CERTIFICATE"
block with the bytes
the library returned; its first call is the library call with the template of
`certTemplate` as template and as parent, and it makes no request call. -/
theorem createSelfSignedCertificate_spec (env : Env) (fs : Files) (tick : Nat) (path : String)
    (subjectName : Name) (certDNSNames : List String) (d : Int) (key : PrivateKey) :
    (∀ q, q ≠ env.fileOf path →
      (createSelfSignedCertificate env fs tick path subjectName certDNSNames d key).files q
        = fs q) ∧
    ((createSelfSignedCertificate env fs tick path subjectName certDNSNames d key).err = none →
      ∃ cer, env.x509CreateCertificate (certTemplate env tick subjectName certDNSNames d)
          (certTemplate env tick subjectName certDNSNames d) key.PublicKey key = .ok cer ∧
        (createSelfSignedCertificate env fs tick path subjectName certDNSNames d key).files
            (env.fileOf path)
          = some (FileContent.pem [⟨"CERTIFICATE", cer⟩]) ∧
        (createSelfSignedCertificate env fs tick path subjectName certDNSNames d key).events
          = [Event.x509CreateCertificate (certTemplate env tick subjectName certDNSNames d)
               (certTemplate env tick subjectName certDNSNames d) key.PublicKey key,
             Event.osCreate path, Event.pemEncode path ⟨"CERTIFICATE", cer⟩]) ∧
    (Event.x509CreateCertificate (certTemplate env tick subjectName certDNSNames d)
        (certTemplate env tick subjectName certDNSNames d) key.PublicKey key ∈
      (createSelfSignedCertificate env fs tick path subjectName certDNSNames d key).events) ∧
    (∀ e ∈ (createSelfSignedCertificate env fs tick path subjectName certDNSNames d key).events,
      e.isCertReqCall = false ∧
      (∀ tpl parent pub k, e = Event.x509CreateCertificate tpl parent pub k →
        tpl = certTemplate env tick subjectName certDNSNames d ∧ parent = tpl ∧
        pub = key.PublicKey ∧ k = key) ∧
      (∀ p, e = Event.osCreate p → p = path)) := by
  unfold createSelfSignedCertificate
  cases hg : env.x509CreateCertificate (certTemplate env tick subjectName certDNSNames d)
      (certTemplate env tick subjectName certDNSNames d) key.PublicKey key with
  | error e =>
    simp [hg, Event.isCertReqCall]
    intro tpl parent pub k h1 h2 h3 h4
    subst h1 h2 h3 h4
    exact ⟨rfl, rfl, rfl, rfl⟩
  | ok cer =>
    have hw := writePEMFile_spec env fs path "CERTIFICATE" cer
    simp only [hg]
    refine ⟨hw.1, ?_, by simp, ?_⟩
    · intro h
      have h2 := hw.2.1 h
      exact ⟨cer, rfl, h2.1, by simp [h2.2]⟩
    · intro e he
      rcases List.mem_cons.1 he with rfl | he
      · simp [Event.isCertReqCall]
        intro tpl parent pub k h1 h2 h3 h4
        subst h1 h2 h3 h4
        exact ⟨rfl, rfl, rfl, rfl⟩
      · have h3 := hw.2.2.2.2 e he
        refine ⟨h3.1, ?_, h3.2.2.1⟩
        intro tpl parent pub k hek
        have := h3.2.1
        simp [hek, Event.isCertCall] at this

/-! ## `main` -/

/-- The run when configuration fails. -/
theorem main_of_config_error (env : Env) (fs : Files) (args : List FlagArg) (e : GoError)
    (h : (parseCommandParameter env fs args).err = some e) :
    main env fs args =
      ⟨(parseCommandParameter env fs args).events ++
        [Event.logFatalf ("cannot have valid command options: " ++ e.msg)], fs, 1⟩ := by
  simp [main, h]

/-- The run when the key step fails. -/
theorem main_of_key_error (env : Env) (fs : Files) (args : List FlagArg) (p : Params)
    (k : KeyResult) (e : GoError) (hp : parseCommandParameter env fs args = p)
    (hk : createPrivateKey env fs p.keyPath p.keySize p.keyPKCS1 = k)
    (hpe : p.err = none) (hke : k.err = some e) :
    main env fs args =
      ⟨p.events ++ k.events ++
        [Event.logFatalf ("ERROR: failed on setting up private key: " ++ e.msg)],
        k.files, 1⟩ := by
  subst hp hk
  simp [main, hpe, hke]

/-- The run when configuration and the key step succeed. -/
theorem main_of_key_ok (env : Env) (fs : Files) (args : List FlagArg) (p : Params)
    (k : KeyResult) (key : PrivateKey) (hp : parseCommandParameter env fs args = p)
    (hk : createPrivateKey env fs p.keyPath p.keySize p.keyPKCS1 = k)
    (hpe : p.err = none) (hke : k.err = none) (hkey : k.privKey = some key) :
    main env fs args =
      mainCertReq env k.files
        (p.events ++ k.events ++
          [Event.logPrintf ("INFO: generated private key: [" ++ p.keyPath ++ "]")]) p key := by
  subst hp hk
  simp [main, hpe, hke, hkey]

/-- The request step of `main` when the request path is empty. -/
theorem mainCertReq_skip (env : Env) (fs : Files) (ev : List Event) (p : Params)
    (key : PrivateKey) (h : p.certReqPath = "") :
    mainCertReq env fs ev p key =
      mainSelfSign env fs (ev ++ [Event.logPrint "INFO: skip certificate request generation."])
        p key := by
  simp [mainCertReq, h]

/-- The request step of `main` when the request step fails. -/
theorem mainCertReq_error (env : Env) (fs : Files) (ev : List Event) (p : Params)
    (key : PrivateKey) (q : WriteResult) (e : GoError) (h : p.certReqPath ≠ "")
    (hq : createCertificateRequest env fs p.certReqPath p.subjectName p.certDNSNames key = q)
    (hqe : q.err = some e) :
    mainCertReq env fs ev p key =
      ⟨ev ++ q.events ++
        [Event.logFatalf ("ERROR: failed on setting up certificate request: " ++ e.msg)],
        q.files, 1⟩ := by
  subst hq
  simp [mainCertReq, h, hqe]

/-- The request step of `main` when the request step succeeds. -/
theorem mainCertReq_ok (env : Env) (fs : Files) (ev : List Event) (p : Params)
    (key : PrivateKey) (q : WriteResult) (h : p.certReqPath ≠ "")
    (hq : createCertificateRequest env fs p.certReqPath p.subjectName p.certDNSNames key = q)
    (hqe : q.err = none) :
    mainCertReq env fs ev p key =
      mainSelfSign env q.files
        (ev ++ q.events ++
          [Event.logPrintf ("INFO: generated certificate request: [" ++ p.certReqPath ++ "]")])
        p key := by
  subst hq
  simp [mainCertReq, h, hqe]

/-- The certificate step of `main` when the certificate path is empty. -/
theorem mainSelfSign_skip (env : Env) (fs : Files) (ev : List Event) (p : Params)
    (key : PrivateKey) (h : p.selfSignCertPath = "") :
    mainSelfSign env fs ev p key =
      ⟨ev ++ [Event.logPrint "INFO: skip self-signed certificate generation."], fs, 0⟩ := by
  simp [mainSelfSign, h]

/-- The certificate step of `main` when the certificate step fails. -/
theorem mainSelfSign_error (env : Env) (fs : Files) (ev : List Event) (p : Params)
    (key : PrivateKey) (c : WriteResult) (e : GoError) (h : p.selfSignCertPath ≠ "")
    (hc : createSelfSignedCertificate env fs 0 p.selfSignCertPath p.subjectName p.certDNSNames
      p.selfSignedCertValidDuration key = c)
    (hce : c.err = some e) :
    mainSelfSign env fs ev p key =
      ⟨ev ++ c.events ++
        [Event.logFatalf ("ERROR: failed on setting up self-signed certificate: " ++ e.msg)],
        c.files, 1⟩ := by
  subst hc
  simp [mainSelfSign, h, hce]

/-- The certificate step of `main` when the certificate step succeeds. -/
theorem mainSelfSign_ok (env : Env) (fs : Files) (ev : List Event) (p : Params)
    (key : PrivateKey) (c : WriteResult) (h : p.selfSignCertPath ≠ "")
    (hc : createSelfSignedCertificate env fs 0 p.selfSignCertPath p.subjectName p.certDNSNames
      p.selfSignedCertValidDuration key = c)
    (hce : c.err = none) :
    mainSelfSign env fs ev p key =
      ⟨ev ++ c.events ++
        [Event.logPrintf ("INFO: generated self-signed certificate: [" ++
          p.selfSignCertPath ++ "]")], c.files, 0⟩ := by
  subst hc
  simp [mainSelfSign, h, hce]

/-- The certificate step never ends with a status above 1, and ends with
status 0 only if a requested certificate was written without error. -/
theorem mainSelfSign_exit_zero (env : Env) (fs : Files) (ev : List Event) (p : Params)
    (key : PrivateKey) (h : (mainSelfSign env fs ev p key).exitCode = 0) :
    p.selfSignCertPath ≠ "" →
      (createSelfSignedCertificate env fs 0 p.selfSignCertPath p.subjectName p.certDNSNames
        p.selfSignedCertValidDuration key).err = none := by
  intro hne
  cases hce : (createSelfSignedCertificate env fs 0 p.selfSignCertPath p.subjectName
      p.certDNSNames p.selfSignedCertValidDuration key).err with
  | none => rfl
  | some e =>
    rw [mainSelfSign_error env fs ev p key _ e hne rfl hce] at h
    simp at h

/-- A run that ends with status 0 passed configuration and the key step, and
every requested later step. -/
theorem main_exit_zero (env : Env) (fs : Files) (args : List FlagArg) (p : Params)
    (k : KeyResult) (hp : parseCommandParameter env fs args = p)
    (hk : createPrivateKey env fs p.keyPath p.keySize p.keyPKCS1 = k)
    (h : (main env fs args).exitCode = 0) :
    p.err = none ∧ k.err = none ∧ ∃ key, k.privKey = some key ∧
      (p.certReqPath ≠ "" →
        (createCertificateRequest env k.files p.certReqPath p.subjectName p.certDNSNames
          key).err = none) ∧
      (p.selfSignCertPath ≠ "" →
        (createSelfSignedCertificate env
          (if p.certReqPath = "" then k.files
           else (createCertificateRequest env k.files p.certReqPath p.subjectName
            p.certDNSNames key).files)
          0 p.selfSignCertPath p.subjectName p.certDNSNames p.selfSignedCertValidDuration
          key).err = none) := by
  cases hpe : p.err with
  | some e =>
    rw [main_of_config_error env fs args e (hp ▸ hpe)] at h
    simp at h
  | none =>
    cases hke : k.err with
    | some e =>
      rw [main_of_key_error env fs args p k e hp hk hpe hke] at h
      simp at h
    | none =>
      have hkf := createPrivateKey_frame env fs p.keyPath p.keySize p.keyPKCS1
      rw [hk] at hkf
      obtain ⟨key, hkey, _⟩ := hkf.1 hke
      refine ⟨rfl, rfl, key, hkey, ?_⟩
      rw [main_of_key_ok env fs args p k key hp hk hpe hke hkey] at h
      by_cases hreq : p.certReqPath = ""
      · rw [mainCertReq_skip env _ _ p key hreq] at h
        refine ⟨fun hne => absurd hreq hne, ?_⟩
        simp only [hreq, if_true]
        exact mainSelfSign_exit_zero env _ _ p key h
      · cases hqe : (createCertificateRequest env k.files p.certReqPath p.subjectName
            p.certDNSNames key).err with
        | some e =>
          rw [mainCertReq_error env _ _ p key _ e hreq rfl hqe] at h
          simp at h
        | none =>
          rw [mainCertReq_ok env _ _ p key _ hreq rfl hqe] at h
          refine ⟨fun _ => rfl, ?_⟩
          simp only [hreq, if_false]
          exact mainSelfSign_exit_zero env _ _ p key h

/-- C3, as amended: `main` runs configure, key, request, certificate in that
order and stops at the first failure.  A configuration failure leaves the file
system as it was and makes no key, request, certificate or file call.  A key
step failure makes no request or certificate call.  A request step failure
makes no certificate call.  Nothing is rolled back: the run ends with the file
system as the failing step left it, and the failing step changes no file other
than the one that its own output path names, so every other file is as the
earlier steps left it. -/
theorem main_aborts_at_first_failure (env : Env) (fs : Files) (args : List FlagArg)
    (p : Params) (k : KeyResult) (hp : parseCommandParameter env fs args = p)
    (hk : createPrivateKey env fs p.keyPath p.keySize p.keyPKCS1 = k) :
    (p.err ≠ none →
      (main env fs args).files = fs ∧
      ∀ e ∈ (main env fs args).events,
        e.isFileWrite = false ∧ e.isCertReqCall = false ∧ e.isCertCall = false ∧
        ∀ n, e ≠ Event.rsaGenerateKey n) ∧
    (p.err = none → k.err ≠ none →
      (main env fs args).files = k.files ∧
      (∀ e ∈ (main env fs args).events, e.isCertReqCall = false ∧ e.isCertCall = false) ∧
      ∀ file, file ≠ env.fileOf p.keyPath → (main env fs args).files file = fs file) ∧
    (p.err = none → k.err = none → p.certReqPath ≠ "" →
      ∀ key q, k.privKey = some key →
        createCertificateRequest env k.files p.certReqPath p.subjectName p.certDNSNames key = q →
        q.err ≠ none →
        (main env fs args).files = q.files ∧
        (∀ e ∈ (main env fs args).events, e.isCertCall = false) ∧
        ∀ file, file ≠ env.fileOf p.certReqPath →
          (main env fs args).files file = k.files file) ∧
    (p.err = none → k.err = none → p.selfSignCertPath ≠ "" →
      ∀ key q c, k.privKey = some key →
        createCertificateRequest env k.files p.certReqPath p.subjectName p.certDNSNames key = q →
        (p.certReqPath = "" ∨ q.err = none) →
        createSelfSignedCertificate env (if p.certReqPath = "" then k.files else q.files) 0
          p.selfSignCertPath p.subjectName p.certDNSNames p.selfSignedCertValidDuration key = c →
        c.err ≠ none →
        (main env fs args).files = c.files ∧
        ∀ file, file ≠ env.fileOf p.selfSignCertPath →
          (main env fs args).files file
            = (if p.certReqPath = "" then k.files else q.files) file) ∧
    (p.err = none → k.err = none → p.certReqPath ≠ "" → p.selfSignCertPath ≠ "" →
      ∀ key q c, k.privKey = some key →
        createCertificateRequest env k.files p.certReqPath p.subjectName p.certDNSNames key = q →
        q.err = none →
        createSelfSignedCertificate env q.files 0 p.selfSignCertPath p.subjectName
          p.certDNSNames p.selfSignedCertValidDuration key = c →
        c.err = none →
        (main env fs args).events
          = p.events ++ k.events ++
              [Event.logPrintf ("INFO: generated private key: [" ++ p.keyPath ++ "]")] ++
              q.events ++
              [Event.logPrintf ("INFO: generated certificate request: [" ++ p.certReqPath ++
                "]")] ++
              c.events ++
              [Event.logPrintf ("INFO: generated self-signed certificate: [" ++
                p.selfSignCertPath ++ "]")]) := by
  refine ⟨?_, ?_, ?_, ?_, ?_⟩
  · intro hpe
    obtain ⟨e, he⟩ := exists_of_ne_none hpe
    rw [main_of_config_error env fs args e (hp ▸ he)]
    refine ⟨rfl, ?_⟩
    intro ev hev
    rcases List.mem_append.1 hev with h | h
    · exact resolveFlags_events env fs (flagParse args) ev h
    · simp at h
      subst h
      simp [Event.isFileWrite, Event.isCertReqCall, Event.isCertCall]
  · intro hpe hke
    obtain ⟨e, he⟩ := exists_of_ne_none hke
    rw [main_of_key_error env fs args p k e hp hk hpe he]
    have hkf := createPrivateKey_frame env fs p.keyPath p.keySize p.keyPKCS1
    rw [hk] at hkf
    refine ⟨rfl, ?_, fun file hfile => hkf.2.1 file hfile⟩
    intro ev hev
    simp only [List.mem_append, List.mem_singleton] at hev
    rcases hev with (h | h) | h
    · have := resolveFlags_events env fs (flagParse args) ev (by rw [← hp] at h; exact h)
      exact ⟨this.2.1, this.2.2.1⟩
    · exact ⟨(hkf.2.2 ev h).1, (hkf.2.2 ev h).2.1⟩
    · subst h
      simp [Event.isCertReqCall, Event.isCertCall]
  · intro hpe hke hreq key q hkey hq hqe
    obtain ⟨e, he⟩ := exists_of_ne_none hqe
    rw [main_of_key_ok env fs args p k key hp hk hpe hke hkey,
      mainCertReq_error env _ _ p key q e hreq hq he]
    have hkf := createPrivateKey_frame env fs p.keyPath p.keySize p.keyPKCS1
    rw [hk] at hkf
    have hqs := createCertificateRequest_spec env k.files p.certReqPath p.subjectName
      p.certDNSNames key
    rw [hq] at hqs
    refine ⟨rfl, ?_, fun file hfile => hqs.1 file hfile⟩
    intro ev hev
    simp only [List.mem_append, List.mem_singleton] at hev
    rcases hev with (((h | h) | h) | h) | h
    · exact (resolveFlags_events env fs (flagParse args) ev (by rw [← hp] at h; exact h)).2.2.1
    · exact (hkf.2.2 ev h).2.1
    · subst h; rfl
    · exact (hqs.2.2.2 ev h).1
    · subst h; rfl
  · intro hpe hke hself key q c hkey hq hqok hc hce
    obtain ⟨e, he⟩ := exists_of_ne_none hce
    rw [main_of_key_ok env fs args p k key hp hk hpe hke hkey]
    by_cases hreq : p.certReqPath = ""
    · simp only [hreq, if_true] at hc ⊢
      have hcs := createSelfSignedCertificate_spec env k.files 0 p.selfSignCertPath
        p.subjectName p.certDNSNames p.selfSignedCertValidDuration key
      rw [hc] at hcs
      rw [mainCertReq_skip env _ _ p key hreq, mainSelfSign_error env _ _ p key c e hself hc he]
      exact ⟨rfl, fun file hfile => hcs.1 file hfile⟩
    · have hqe : q.err = none := hqok.resolve_left hreq
      simp only [hreq, if_false] at hc ⊢
      have hcs := createSelfSignedCertificate_spec env q.files 0 p.selfSignCertPath
        p.subjectName p.certDNSNames p.selfSignedCertValidDuration key
      rw [hc] at hcs
      rw [mainCertReq_ok env _ _ p key q hreq hq hqe,
        mainSelfSign_error env _ _ p key c e hself hc he]
      exact ⟨rfl, fun file hfile => hcs.1 file hfile⟩
  · intro hpe hke hreq hself key q c hkey hq hqe hc hce
    rw [main_of_key_ok env fs args p k key hp hk hpe hke hkey,
      mainCertReq_ok env _ _ p key q hreq hq hqe,
      mainSelfSign_ok env _ _ p key c hself hc hce]

/-- A list none of whose elements passes a test. -/
theorem any_false_of_forall {l : List Event} {f : Event → Bool} (h : ∀ e ∈ l, f e = false) :
    l.any f = false := by
  rw [List.any_eq_false]
  intro e he
  simp [h e he]

/-- A list one of whose elements passes a test. -/
theorem any_true_of_mem {l : List Event} {f : Event → Bool} {e : Event} (he : e ∈ l)
    (hf : f e = true) : l.any f = true :=
  List.any_eq_true.2 ⟨e, he, hf⟩

/-- C5, as amended: in a run in which configuration and the key step succeed,
the request builder is called exactly when the request path is not empty; the
certificate builder is called exactly when the certificate path is not empty
and the request step was skipped or succeeded; with both paths empty the
run ends with status 0, the key path is the only path created or written, and
every file but the one that it names is as it was. -/
theorem main_optional_steps (env : Env) (fs : Files) (args : List FlagArg)
    (p : Params) (k : KeyResult) (key : PrivateKey)
    (hp : parseCommandParameter env fs args = p)
    (hk : createPrivateKey env fs p.keyPath p.keySize p.keyPKCS1 = k)
    (hpe : p.err = none) (hke : k.err = none) (hkey : k.privKey = some key) :
    ((main env fs args).events.any Event.isCertReqCall = true ↔ p.certReqPath ≠ "") ∧
    ((main env fs args).events.any Event.isCertCall = true ↔
      p.selfSignCertPath ≠ "" ∧
      (p.certReqPath = "" ∨
        (createCertificateRequest env k.files p.certReqPath p.subjectName p.certDNSNames
          key).err = none)) ∧
    (p.certReqPath = "" → p.selfSignCertPath = "" →
      (main env fs args).exitCode = 0 ∧
      (main env fs args).files = k.files ∧
      (∀ file, file ≠ env.fileOf p.keyPath → (main env fs args).files file = fs file) ∧
      (∀ path, Event.osCreate path ∈ (main env fs args).events → path = p.keyPath) ∧
      (∀ path b, Event.pemEncode path b ∈ (main env fs args).events → path = p.keyPath)) := by
  have hpev : ∀ e ∈ p.events, e.isFileWrite = false ∧ e.isCertReqCall = false ∧
      e.isCertCall = false ∧ ∀ n, e ≠ Event.rsaGenerateKey n := by
    rw [← hp]; exact resolveFlags_events env fs (flagParse args)
  have hkf := createPrivateKey_frame env fs p.keyPath p.keySize p.keyPKCS1
  rw [hk] at hkf
  have hp1 : p.events.any Event.isCertReqCall = false :=
    any_false_of_forall fun e he => (hpev e he).2.1
  have hp2 : p.events.any Event.isCertCall = false :=
    any_false_of_forall fun e he => (hpev e he).2.2.1
  have hk1 : k.events.any Event.isCertReqCall = false :=
    any_false_of_forall fun e he => (hkf.2.2 e he).1
  have hk2 : k.events.any Event.isCertCall = false :=
    any_false_of_forall fun e he => (hkf.2.2 e he).2.1
  rw [main_of_key_ok env fs args p k key hp hk hpe hke hkey]
  by_cases hreq : p.certReqPath = ""
  · rw [mainCertReq_skip env _ _ p key hreq]
    by_cases hself : p.selfSignCertPath = ""
    · rw [mainSelfSign_skip env _ _ p key hself]
      simp only [List.any_append, hp1, hp2, hk1, hk2, hreq, hself]
      refine ⟨by simp [Event.isCertReqCall], by simp [Event.isCertCall], fun _ _ => ?_⟩
      refine ⟨by first | rfl | trivial, by first | rfl | trivial,
        fun path hpath => hkf.2.1 path hpath, ?_, ?_⟩
      · intro path hmem
        simp only [List.mem_append, List.mem_singleton] at hmem
        rcases hmem with (((h | h) | h) | h) | h
        · have := (hpev _ h).1
          simp [Event.isFileWrite] at this
        · exact (hkf.2.2 _ h).2.2.1 path rfl
        · simp at h
        · simp at h
        · simp at h
      · intro path b hmem
        simp only [List.mem_append, List.mem_singleton] at hmem
        rcases hmem with (((h | h) | h) | h) | h
        · have := (hpev _ h).1
          simp [Event.isFileWrite] at this
        · exact (hkf.2.2 _ h).2.2.2 path b rfl
        · simp at h
        · simp at h
        · simp at h
    · have hcs := createSelfSignedCertificate_spec env k.files 0 p.selfSignCertPath
        p.subjectName p.certDNSNames p.selfSignedCertValidDuration key
      have hc1 : (createSelfSignedCertificate env k.files 0 p.selfSignCertPath
          p.subjectName p.certDNSNames p.selfSignedCertValidDuration key).events.any
          Event.isCertReqCall = false :=
        any_false_of_forall fun e he => (hcs.2.2.2 e he).1
      have hc2 : (createSelfSignedCertificate env k.files 0 p.selfSignCertPath
          p.subjectName p.certDNSNames p.selfSignedCertValidDuration key).events.any
          Event.isCertCall = true :=
        any_true_of_mem hcs.2.2.1 rfl
      cases hce : (createSelfSignedCertificate env k.files 0 p.selfSignCertPath
          p.subjectName p.certDNSNames p.selfSignedCertValidDuration key).err with
      | some e =>
        rw [mainSelfSign_error env _ _ p key _ e hself rfl hce]
        simp [List.any_append, hp1, hp2, hk1, hk2, hc1, hc2, hreq, hself, Event.isCertReqCall]
      | none =>
        rw [mainSelfSign_ok env _ _ p key _ hself rfl hce]
        simp [List.any_append, hp1, hp2, hk1, hk2, hc1, hc2, hreq, hself, Event.isCertReqCall]
  · have hqs := createCertificateRequest_spec env k.files p.certReqPath p.subjectName
      p.certDNSNames key
    have hq1 : (createCertificateRequest env k.files p.certReqPath p.subjectName
        p.certDNSNames key).events.any Event.isCertReqCall = true :=
      any_true_of_mem hqs.2.2.1 rfl
    have hq2 : (createCertificateRequest env k.files p.certReqPath p.subjectName
        p.certDNSNames key).events.any Event.isCertCall = false :=
      any_false_of_forall fun e he => (hqs.2.2.2 e he).1
    cases hqe : (createCertificateRequest env k.files p.certReqPath p.subjectName
        p.certDNSNames key).err with
    | some e =>
      rw [mainCertReq_error env _ _ p key _ e hreq rfl hqe]
      simp [List.any_append, hp1, hp2, hk1, hk2, hq1, hq2, hreq, Event.isCertCall]
    | none =>
      rw [mainCertReq_ok env _ _ p key _ hreq rfl hqe]
      by_cases hself : p.selfSignCertPath = ""
      · rw [mainSelfSign_skip env _ _ p key hself]
        simp [List.any_append, hp1, hp2, hk1, hk2, hq1, hq2, hreq, hself, Event.isCertCall]
      · have hcs := createSelfSignedCertificate_spec env
          (createCertificateRequest env k.files p.certReqPath p.subjectName
            p.certDNSNames key).files 0 p.selfSignCertPath
          p.subjectName p.certDNSNames p.selfSignedCertValidDuration key
        have hc2 : (createSelfSignedCertificate env
            (createCertificateRequest env k.files p.certReqPath p.subjectName
              p.certDNSNames key).files 0 p.selfSignCertPath
            p.subjectName p.certDNSNames p.selfSignedCertValidDuration key).events.any
            Event.isCertCall = true :=
          any_true_of_mem hcs.2.2.1 rfl
        cases hce : (createSelfSignedCertificate env
            (createCertificateRequest env k.files p.certReqPath p.subjectName
              p.certDNSNames key).files 0 p.selfSignCertPath
            p.subjectName p.certDNSNames p.selfSignedCertValidDuration key).err with
        | some e =>
          rw [mainSelfSign_error env _ _ p key _ e hself rfl hce]
          simp [List.any_append, hp1, hp2, hk1, hk2, hq1, hq2, hc2, hreq, hself]
        | none =>
          rw [mainSelfSign_ok env _ _ p key _ hself rfl hce]
          simp [List.any_append, hp1, hp2, hk1, hk2, hq1, hq2, hc2, hreq, hself]

/-- A property of events that holds of the log lines and of the calls of every
step holds of every call of a run. -/
theorem main_events_all (env : Env) (fs : Files) (args : List FlagArg) (P : Event → Prop)
    (hlog : ∀ s, P (Event.logPrintf s) ∧ P (Event.logPrint s) ∧ P (Event.logFatalf s))
    (hparse : ∀ e ∈ (parseCommandParameter env fs args).events, P e)
    (hkey : ∀ e ∈ (createPrivateKey env fs (parseCommandParameter env fs args).keyPath
      (parseCommandParameter env fs args).keySize
      (parseCommandParameter env fs args).keyPKCS1).events, P e)
    (hreq : ∀ fs2 key, ∀ e ∈ (createCertificateRequest env fs2
      (parseCommandParameter env fs args).certReqPath
      (parseCommandParameter env fs args).subjectName
      (parseCommandParameter env fs args).certDNSNames key).events, P e)
    (hcert : ∀ fs2 key, ∀ e ∈ (createSelfSignedCertificate env fs2 0
      (parseCommandParameter env fs args).selfSignCertPath
      (parseCommandParameter env fs args).subjectName
      (parseCommandParameter env fs args).certDNSNames
      (parseCommandParameter env fs args).selfSignedCertValidDuration key).events, P e) :
    ∀ e ∈ (main env fs args).events, P e := by
  intro e he
  unfold main at he
  simp only [mainCertReq, mainSelfSign] at he
  iterate 8 (all_goals (try split at he))
  all_goals simp only [List.mem_append, List.mem_singleton] at he
  all_goals
    casesm* _ ∨ _ <;>
    first
      | exact hparse e (by assumption)
      | exact hkey e (by assumption)
      | exact hreq _ _ e (by assumption)
      | exact hcert _ _ e (by assumption)
      | (subst_vars; exact (hlog _).1)
      | (subst_vars; exact (hlog _).2.1)
      | (subst_vars; exact (hlog _).2.2)

/-- C4: when `parseCommandParameter` succeeds, the common name of the subject
is the `-CN` value if that is not empty, else the first accumulated DNS name
if there is one, else empty; the returned DNS names are the accumulated list,
which holds the trimmed non-empty `-dnsName` values in command line order; and
every request or certificate that `main` has built is built on that subject
and that list. -/
theorem subject_common_name_default (env : Env) (fs : Files) (args : List FlagArg)
    (f : FlagVars) (p : Params) (hf : flagParse args = f)
    (hp : parseCommandParameter env fs args = p) (hok : p.err = none) :
    (f.dnCommonName ≠ "" → p.subjectName.CommonName = f.dnCommonName) ∧
    (f.dnCommonName = "" → ∀ d ds, f.dnsNames = d :: ds → p.subjectName.CommonName = d) ∧
    (f.dnCommonName = "" → f.dnsNames = [] → p.subjectName.CommonName = "") ∧
    p.certDNSNames = f.dnsNames ∧
    f.dnsNames = args.filterMap (fun a =>
      match a with
      | .dnsName v => if trimSpace v = "" then none else some (trimSpace v)
      | _ => none) ∧
    (∀ tpl key, Event.x509CreateCertificateRequest tpl key ∈ (main env fs args).events →
      tpl.Subject = p.subjectName ∧ tpl.DNSNames = p.certDNSNames) ∧
    (∀ tpl parent pub key,
      Event.x509CreateCertificate tpl parent pub key ∈ (main env fs args).events →
      tpl.Subject = p.subjectName ∧ tpl.DNSNames = p.certDNSNames ∧ parent = tpl) ∧
    ((main env fs args).exitCode = 0 → p.certReqPath ≠ "" →
      ∃ key, Event.x509CreateCertificateRequest ⟨p.subjectName, p.certDNSNames⟩ key ∈
        (main env fs args).events) ∧
    ((main env fs args).exitCode = 0 → p.selfSignCertPath ≠ "" →
      ∃ tpl key, tpl.Subject = p.subjectName ∧ tpl.DNSNames = p.certDNSNames ∧
        Event.x509CreateCertificate tpl tpl key.PublicKey key ∈ (main env fs args).events) := by
  have hr := resolveFlags_ok env fs f (by
    have : resolveFlags env fs f = p := by rw [← hp, ← hf]; rfl
    rw [this]; exact hok)
  have hpr : resolveFlags env fs f = p := by rw [← hp, ← hf]; rfl
  rw [hpr] at hr
  obtain ⟨-, -, -, -, -, -, -, hsub, hdns, -, -, -⟩ := hr
  have hall := main_events_all env fs args
    (fun e =>
      (∀ tpl key, e = Event.x509CreateCertificateRequest tpl key →
        tpl.Subject = p.subjectName ∧ tpl.DNSNames = p.certDNSNames) ∧
      (∀ tpl parent pub key, e = Event.x509CreateCertificate tpl parent pub key →
        tpl.Subject = p.subjectName ∧ tpl.DNSNames = p.certDNSNames ∧ parent = tpl))
    (by intro s; simp)
    (by
      intro e he
      have h := resolveFlags_events env fs (flagParse args) e he
      constructor
      · intro tpl key heq
        have := h.2.1
        simp [heq, Event.isCertReqCall] at this
      · intro tpl parent pub key heq
        have := h.2.2.1
        simp [heq, Event.isCertCall] at this)
    (by
      intro e he
      have h := (createPrivateKey_frame env fs _ _ _).2.2 e he
      constructor
      · intro tpl key heq
        have := h.1
        simp [heq, Event.isCertReqCall] at this
      · intro tpl parent pub key heq
        have := h.2.1
        simp [heq, Event.isCertCall] at this)
    (by
      intro fs2 key e he
      have h := (createCertificateRequest_spec env fs2 _ _ _ key).2.2.2 e he
      rw [hp] at h
      constructor
      · intro tpl k heq
        have h2 := (h.2.1 tpl k heq).1
        subst h2
        exact ⟨rfl, rfl⟩
      · intro tpl parent pub k heq
        have := h.1
        simp [heq, Event.isCertCall] at this)
    (by
      intro fs2 key e he
      have h := (createSelfSignedCertificate_spec env fs2 0 _ _ _ _ key).2.2.2 e he
      rw [hp] at h
      constructor
      · intro tpl k heq
        have := h.1
        simp [heq, Event.isCertReqCall] at this
      · intro tpl parent pub k heq
        obtain ⟨h1, h2, -, -⟩ := h.2.1 tpl parent pub k heq
        subst h1
        exact ⟨rfl, rfl, h2⟩)
  refine ⟨?_, ?_, ?_, hdns, ?_, ?_, ?_, ?_, ?_⟩
  · intro hcn
    simp [hsub, hcn]
  · intro hcn d ds hd
    simp [hsub, hcn, hd]
  · intro hcn hd
    simp [hsub, hcn, hd]
  · rw [← hf]
    unfold flagParse
    rw [foldl_flagSet_dnsNames]
    simp [flagDefaults]
  · intro tpl key hmem
    exact (hall _ hmem).1 tpl key rfl
  · intro tpl parent pub key hmem
    exact (hall _ hmem).2 tpl parent pub key rfl
  · intro hexit hreq
    obtain ⟨hpe, hke, key, hkey, hq, -⟩ := main_exit_zero env fs args p _ hp rfl hexit
    refine ⟨key, ?_⟩
    rw [main_of_key_ok env fs args p _ key hp rfl hpe hke hkey,
      mainCertReq_ok env _ _ p key _ hreq rfl (hq hreq)]
    by_cases hself : p.selfSignCertPath = ""
    · rw [mainSelfSign_skip env _ _ p key hself]
      simp only [List.mem_append]
      exact Or.inl (Or.inl (Or.inr (createCertificateRequest_spec env _ _ _ _ key).2.2.1))
    · cases hce : (createSelfSignedCertificate env
          (createCertificateRequest env _ p.certReqPath p.subjectName p.certDNSNames key).files
          0 p.selfSignCertPath p.subjectName p.certDNSNames p.selfSignedCertValidDuration
          key).err with
      | some e =>
        rw [mainSelfSign_error env _ _ p key _ e hself rfl hce]
        simp only [List.mem_append]
        exact Or.inl (Or.inl (Or.inl (Or.inr
          (createCertificateRequest_spec env _ _ _ _ key).2.2.1)))
      | none =>
        rw [mainSelfSign_ok env _ _ p key _ hself rfl hce]
        simp only [List.mem_append]
        exact Or.inl (Or.inl (Or.inl (Or.inr
          (createCertificateRequest_spec env _ _ _ _ key).2.2.1)))
  · intro hexit hself
    obtain ⟨hpe, hke, key, hkey, hq, hc⟩ := main_exit_zero env fs args p _ hp rfl hexit
    refine ⟨certTemplate env 0 p.subjectName p.certDNSNames p.selfSignedCertValidDuration,
      key, rfl, rfl, ?_⟩
    rw [main_of_key_ok env fs args p _ key hp rfl hpe hke hkey]
    by_cases hreq : p.certReqPath = ""
    · have hce := hc hself
      simp only [hreq, if_true] at hce
      rw [mainCertReq_skip env _ _ p key hreq, mainSelfSign_ok env _ _ p key _ hself rfl hce]
      simp only [List.mem_append]
      exact Or.inl (Or.inr (createSelfSignedCertificate_spec env _ 0 _ _ _ _ key).2.2.1)
    · have hce := hc hself
      simp only [hreq, if_false] at hce
      rw [mainCertReq_ok env _ _ p key _ hreq rfl (hq hreq),
        mainSelfSign_ok env _ _ p key _ hself rfl hce]
      simp only [List.mem_append]
      exact Or.inl (Or.inr (createSelfSignedCertificate_spec env _ 0 _ _ _ _ key).2.2.1)

/-! ## The private key step -/

/-- C6, as amended: with a key generated (and, for PKCS#8, encoded),
`createPrivateKey` calls `os.Create` on the key path once and, only if that
succeeds, `pem.Encode` once, with one PEM block: label "RSA PRIVATE KEY" and
the PKCS#1 bytes when `keyPKCS1` is on, label "PRIVATE KEY" and the PKCS#8
bytes when it is off.  When `os.Create` fails it returns that error, encodes
no block and leaves the file system as it was; when `pem.Encode` fails it
returns that error and the key file holds an incomplete block; when both
succeed it returns no error and the key file holds exactly that one block.  No
other file is changed.  When key generation or PKCS#8 encoding fails it
returns that error, leaves the file system as it was and makes no file call. -/
theorem createPrivateKey_one_block (env : Env) (fs : Files) (keyPath : String)
    (keySize : Int) (keyPKCS1 : Bool) :
    (∀ key, env.rsaGenerateKey keySize = .ok key → keyPKCS1 = true →
      (∀ e, env.osCreateFault fs keyPath = some e →
        (createPrivateKey env fs keyPath keySize keyPKCS1).err = some e ∧
        (createPrivateKey env fs keyPath keySize keyPKCS1).files = fs ∧
        (createPrivateKey env fs keyPath keySize keyPKCS1).events
          = [Event.rsaGenerateKey keySize, Event.osCreate keyPath,
             Event.logPrintf ("ERROR: cannot open " ++ "RSA PRIVATE KEY" ++
               " file for writing [" ++ keyPath ++ "]: " ++ e.msg)]) ∧
      (∀ e, env.osCreateFault fs keyPath = none →
        env.pemEncodeFault (Files.write fs (env.fileOf keyPath) (FileContent.pem [])) keyPath
          ⟨"RSA PRIVATE KEY", env.marshalPKCS1 key⟩ = some e →
        (createPrivateKey env fs keyPath keySize keyPKCS1).err = some e ∧
        (createPrivateKey env fs keyPath keySize keyPKCS1).files (env.fileOf keyPath)
          = some (FileContent.incomplete ⟨"RSA PRIVATE KEY", env.marshalPKCS1 key⟩) ∧
        (createPrivateKey env fs keyPath keySize keyPKCS1).events
          = [Event.rsaGenerateKey keySize, Event.osCreate keyPath,
             Event.pemEncode keyPath ⟨"RSA PRIVATE KEY", env.marshalPKCS1 key⟩,
             Event.logPrintf ("ERROR: cannot pack " ++ "RSA PRIVATE KEY" ++
               " PEM info file: " ++ e.msg)]) ∧
      (env.osCreateFault fs keyPath = none →
        env.pemEncodeFault (Files.write fs (env.fileOf keyPath) (FileContent.pem [])) keyPath
          ⟨"RSA PRIVATE KEY", env.marshalPKCS1 key⟩ = none →
        (createPrivateKey env fs keyPath keySize keyPKCS1).err = none ∧
        (createPrivateKey env fs keyPath keySize keyPKCS1).files (env.fileOf keyPath)
          = some (FileContent.pem [⟨"RSA PRIVATE KEY", env.marshalPKCS1 key⟩]) ∧
        (createPrivateKey env fs keyPath keySize keyPKCS1).events
          = [Event.rsaGenerateKey keySize, Event.osCreate keyPath,
             Event.pemEncode keyPath ⟨"RSA PRIVATE KEY", env.marshalPKCS1 key⟩]) ∧
      (∀ file, file ≠ env.fileOf keyPath →
        (createPrivateKey env fs keyPath keySize keyPKCS1).files file = fs file)) ∧
    (∀ key buf, env.rsaGenerateKey keySize = .ok key → keyPKCS1 = false →
      env.marshalPKCS8 key = .ok buf →
      (∀ e, env.osCreateFault fs keyPath = some e →
        (createPrivateKey env fs keyPath keySize keyPKCS1).err = some e ∧
        (createPrivateKey env fs keyPath keySize keyPKCS1).files = fs ∧
        (createPrivateKey env fs keyPath keySize keyPKCS1).events
          = [Event.rsaGenerateKey keySize, Event.osCreate keyPath,
             Event.logPrintf ("ERROR: cannot open " ++ "PRIVATE KEY" ++
               " file for writing [" ++ keyPath ++ "]: " ++ e.msg)]) ∧
      (∀ e, env.osCreateFault fs keyPath = none →
        env.pemEncodeFault (Files.write fs (env.fileOf keyPath) (FileContent.pem [])) keyPath
          ⟨"PRIVATE KEY", buf⟩ = some e →
        (createPrivateKey env fs keyPath keySize keyPKCS1).err = some e ∧
        (createPrivateKey env fs keyPath keySize keyPKCS1).files (env.fileOf keyPath)
          = some (FileContent.incomplete ⟨"PRIVATE KEY", buf⟩) ∧
        (createPrivateKey env fs keyPath keySize keyPKCS1).events
          = [Event.rsaGenerateKey keySize, Event.osCreate keyPath,
             Event.pemEncode keyPath ⟨"PRIVATE KEY", buf⟩,
             Event.logPrintf ("ERROR: cannot pack " ++ "PRIVATE KEY" ++
               " PEM info file: " ++ e.msg)]) ∧
      (env.osCreateFault fs keyPath = none →
        env.pemEncodeFault (Files.write fs (env.fileOf keyPath) (FileContent.pem [])) keyPath
          ⟨"PRIVATE KEY", buf⟩ = none →
        (createPrivateKey env fs keyPath keySize keyPKCS1).err = none ∧
        (createPrivateKey env fs keyPath keySize keyPKCS1).files (env.fileOf keyPath)
          = some (FileContent.pem [⟨"PRIVATE KEY", buf⟩]) ∧
        (createPrivateKey env fs keyPath keySize keyPKCS1).events
          = [Event.rsaGenerateKey keySize, Event.osCreate keyPath,
             Event.pemEncode keyPath ⟨"PRIVATE KEY", buf⟩]) ∧
      (∀ file, file ≠ env.fileOf keyPath →
        (createPrivateKey env fs keyPath keySize keyPKCS1).files file = fs file)) ∧
    (∀ e, env.rsaGenerateKey keySize = .error e →
      (createPrivateKey env fs keyPath keySize keyPKCS1).err = some e ∧
      (createPrivateKey env fs keyPath keySize keyPKCS1).files = fs ∧
      ∀ ev ∈ (createPrivateKey env fs keyPath keySize keyPKCS1).events,
        ev.isFileWrite = false) ∧
    (∀ key e, env.rsaGenerateKey keySize = .ok key → keyPKCS1 = false →
      env.marshalPKCS8 key = .error e →
      (createPrivateKey env fs keyPath keySize keyPKCS1).err = some e ∧
      (createPrivateKey env fs keyPath keySize keyPKCS1).files = fs ∧
      ∀ ev ∈ (createPrivateKey env fs keyPath keySize keyPKCS1).events,
        ev.isFileWrite = false) := by
  refine ⟨?_, ?_, ?_, ?_⟩
  · intro key hg hk
    subst hk
    unfold createPrivateKey writePEMFile
    simp only [hg, if_true]
    refine ⟨?_, ?_, ?_, ?_⟩
    · intro e h1
      simp [h1]
    · intro e h1 h2
      simp [h1, h2, Files.write]
    · intro h1 h2
      simp [h1, h2, Files.write]
    · intro file hfile
      cases h1 : env.osCreateFault fs keyPath with
      | some e => simp
      | none =>
        cases h2 : env.pemEncodeFault (Files.write fs (env.fileOf keyPath)
            (FileContent.pem [])) keyPath ⟨"RSA PRIVATE KEY", env.marshalPKCS1 key⟩ with
        | some e => simp [h2, Files.write, hfile]
        | none => simp [h2, Files.write, hfile]
  · intro key buf hg hk h8
    subst hk
    unfold createPrivateKey writePEMFile
    simp only [hg, h8, Bool.false_eq_true, if_false]
    refine ⟨?_, ?_, ?_, ?_⟩
    · intro e h1
      simp [h1]
    · intro e h1 h2
      simp [h1, h2, Files.write]
    · intro h1 h2
      simp [h1, h2, Files.write]
    · intro file hfile
      cases h1 : env.osCreateFault fs keyPath with
      | some e => simp
      | none =>
        cases h2 : env.pemEncodeFault (Files.write fs (env.fileOf keyPath)
            (FileContent.pem [])) keyPath ⟨"PRIVATE KEY", buf⟩ with
        | some e => simp [h2, Files.write, hfile]
        | none => simp [h2, Files.write, hfile]
  · intro e hg
    unfold createPrivateKey
    simp [hg, Event.isFileWrite]
  · intro key e hg hk h8
    subst hk
    unfold createPrivateKey
    simp [hg, h8, Event.isFileWrite]

/-- C6 as stated fails: with the key generated, a key path that cannot be
created gets no PEM block at all. -/
theorem createPrivateKey_no_block_when_create_fails :
    (createPrivateKey envNoCreate noFiles "/missing/key.pem" 2048 true).privKey
      = some sampleKey ∧
    (createPrivateKey envNoCreate noFiles "/missing/key.pem" 2048 true).files
      "/missing/key.pem" = none ∧
    (createPrivateKey envNoCreate noFiles "/missing/key.pem" 2048 true).events.any
      Event.isFileWrite = true ∧
    ∀ e ∈ (createPrivateKey envNoCreate noFiles "/missing/key.pem" 2048 true).events,
      ∀ b, e ≠ Event.pemEncode "/missing/key.pem" b := by
  refine ⟨by decide, by decide, by decide, ?_⟩
  intro e he b
  simp [createPrivateKey, writePEMFile, envNoCreate, envOK] at he
  rcases he with rfl | rfl | rfl <;> simp

/-! ## The validity of the self-signed certificate -/

/-- C7, as amended: when `parseCommandParameter` succeeds, the validity it
returns is the `int64` product of 24 hours and the `-selfSignValidDays` value
`d`, that is `d * 86,400,000,000,000` wrapped into the signed 64-bit range; it
is exactly `d * 86,400,000,000,000` nanoseconds when `-106751 ≤ d ≤ 106751`. -/
theorem validDuration_of_days (env : Env) (fs : Files) (args : List FlagArg) (d : Int)
    (hd : (flagParse args).selfSignedCertValidDays = d)
    (hok : (parseCommandParameter env fs args).err = none) :
    (parseCommandParameter env fs args).selfSignedCertValidDuration
      = wrapInt64 (d * 86400000000000) ∧
    (-106751 ≤ d → d ≤ 106751 →
      (parseCommandParameter env fs args).selfSignedCertValidDuration
        = d * 86400000000000) := by
  have hr := (resolveFlags_ok env fs (flagParse args) hok).2.2.2.2.2.2.2.2.2.2.2
  have h1 : (parseCommandParameter env fs args).selfSignedCertValidDuration
      = wrapInt64 (d * 86400000000000) := by
    unfold parseCommandParameter
    rw [hr, hd, wrapInt64_mul_wrap]
    congr 1
    unfold timeHour
    ring
  refine ⟨h1, fun hlo hhi => ?_⟩
  rw [h1]
  exact wrapInt64_of_range _ (by omega) (by omega)

/-- C7 as stated fails: 106752 days overflow the 64-bit nanosecond count, and
the returned validity is negative. -/
theorem validDuration_overflows :
    (parseCommandParameter envOK noFiles [FlagArg.selfSignValidDays 106752]).err = none ∧
    (parseCommandParameter envOK noFiles
      [FlagArg.selfSignValidDays 106752]).selfSignedCertValidDuration
        = -9223371273709551616 ∧
    (parseCommandParameter envOK noFiles
      [FlagArg.selfSignValidDays 106752]).selfSignedCertValidDuration
        ≠ 106752 * 86400000000000 := by
  decide

/-- C8, as amended: the template that `createSelfSignedCertificate` hands to
the library has not-before equal to one clock reading and not-after equal to
the next clock reading plus the configured duration, so not-after minus
not-before is the duration plus the time between the two readings, and is
exactly the duration when the two readings coincide. -/
theorem certTemplate_validity_window (env : Env) (fs : Files) (tick : Nat) (path : String)
    (subjectName : Name) (certDNSNames : List String) (d : Int) (key : PrivateKey) :
    Event.x509CreateCertificate (certTemplate env tick subjectName certDNSNames d)
        (certTemplate env tick subjectName certDNSNames d) key.PublicKey key ∈
      (createSelfSignedCertificate env fs tick path subjectName certDNSNames d key).events ∧
    (∀ tpl parent pub k, Event.x509CreateCertificate tpl parent pub k ∈
        (createSelfSignedCertificate env fs tick path subjectName certDNSNames d key).events →
      tpl = certTemplate env tick subjectName certDNSNames d) ∧
    (certTemplate env tick subjectName certDNSNames d).NotBefore = env.clock (tick + 1) ∧
    (certTemplate env tick subjectName certDNSNames d).NotAfter = env.clock (tick + 2) + d ∧
    (certTemplate env tick subjectName certDNSNames d).NotAfter -
        (certTemplate env tick subjectName certDNSNames d).NotBefore
      = d + (env.clock (tick + 2) - env.clock (tick + 1)) ∧
    (env.clock (tick + 2) = env.clock (tick + 1) →
      (certTemplate env tick subjectName certDNSNames d).NotAfter -
        (certTemplate env tick subjectName certDNSNames d).NotBefore = d) := by
  have hs := createSelfSignedCertificate_spec env fs tick path subjectName certDNSNames d key
  refine ⟨hs.2.2.1, ?_, rfl, rfl, ?_, ?_⟩
  · intro tpl parent pub k hmem
    exact ((hs.2.2.2 _ hmem).2.1 tpl parent pub k rfl).1
  · simp only [certTemplate, timeAdd]
    ring
  · intro h
    simp only [certTemplate, timeAdd, h]
    ring

/-- C8 as stated fails: on a clock that advances by one nanosecond per
reading, a duration of 366 days gives a template whose not-after minus
not-before is one nanosecond more than the duration. -/
theorem certTemplate_window_exceeds_duration :
    Event.x509CreateCertificate (certTemplate envOK 0 Name.zero [] 31622400000000000)
        (certTemplate envOK 0 Name.zero [] 31622400000000000) sampleKey.PublicKey sampleKey ∈
      (createSelfSignedCertificate envOK noFiles 0 "/work/cert-selfsigned.pem" Name.zero []
        31622400000000000 sampleKey).events ∧
    (certTemplate envOK 0 Name.zero [] 31622400000000000).NotAfter -
        (certTemplate envOK 0 Name.zero [] 31622400000000000).NotBefore
      = 31622400000000001 ∧
    (certTemplate envOK 0 Name.zero [] 31622400000000000).NotAfter -
        (certTemplate envOK 0 Name.zero [] 31622400000000000).NotBefore
      ≠ 31622400000000000 := by
  decide

/-! ## Outputs that share a path -/

/-- The path that `prepareFilePath` returns is the one `filepath.Abs` gave. -/
theorem prepareFilePath_absTargetPath (env : Env) (fs : Files) (usageText targetPath : String)
    (overwriteExisted : Bool) :
    (prepareFilePath env fs usageText targetPath overwriteExisted).absTargetPath
      = (env.filepathAbs targetPath).1 := by
  unfold prepareFilePath
  rcases h1 : env.filepathAbs targetPath with ⟨abs, _ | e1⟩
  · cases hs : osStat env fs abs with
    | none => cases overwriteExisted <;> simp [hs]
    | some e => cases hn : osIsNotExist e <;> simp [hs, hn]
  · simp

/-- A key step without error: the file that the key path names holds one
block, with one of the two private key labels, and the calls are the key
generation, one `os.Create` and one `pem.Encode`. -/
theorem createPrivateKey_ok (env : Env) (fs : Files) (keyPath : String) (keySize : Int)
    (keyPKCS1 : Bool) (h : (createPrivateKey env fs keyPath keySize keyPKCS1).err = none) :
    ∃ blk, (blk.type = "RSA PRIVATE KEY" ∨ blk.type = "PRIVATE KEY") ∧
      (createPrivateKey env fs keyPath keySize keyPKCS1).files (env.fileOf keyPath)
        = some (FileContent.pem [blk]) ∧
      (createPrivateKey env fs keyPath keySize keyPKCS1).events
        = [Event.rsaGenerateKey keySize, Event.osCreate keyPath,
           Event.pemEncode keyPath blk] := by
  unfold createPrivateKey at h ⊢
  cases hg : env.rsaGenerateKey keySize with
  | error e => simp [hg] at h
  | ok key =>
    cases keyPKCS1 with
    | true =>
      simp only [hg, if_true] at h ⊢
      have hw := (writePEMFile_spec env fs keyPath "RSA PRIVATE KEY"
        (env.marshalPKCS1 key)).2.1 h
      exact ⟨_, Or.inl rfl, hw.1, by rw [hw.2]⟩
    | false =>
      cases h8 : env.marshalPKCS8 key with
      | error e => simp [hg, h8] at h
      | ok buf =>
        simp only [hg, h8, Bool.false_eq_true, if_false] at h ⊢
        have hw := (writePEMFile_spec env fs keyPath "PRIVATE KEY" buf).2.1 h
        exact ⟨_, Or.inr rfl, hw.1, by rw [hw.2]⟩

/-- C10: when `-key` and `-req` resolve to the same path and no file exists
there, the key check and the request check both pass (with or without
`-overwrite`), so configuration succeeds, with equal key and request paths,
whenever the certificate path passes its own check; and in a run that ends
with status 0 (with the certificate going to another file) that path is
created twice, and the file that it names ends up holding the
"CERTIFICATE REQUEST" block and not the key block that the key step had
written there. -/
theorem shared_key_and_request_path (env : Env) (fs : Files) (args : List FlagArg)
    (f : FlagVars) (p : Params) (path : String)
    (hf : flagParse args = f) (hp : parseCommandParameter env fs args = p)
    (hkeyne : f.keyPath ≠ "") (hreqne : f.certReqPath ≠ "") (hpath : path ≠ "")
    (hka : env.filepathAbs f.keyPath = (path, none))
    (hra : env.filepathAbs f.certReqPath = (path, none))
    (hnofile : fs (env.fileOf path) = none) (hstat : env.statFault path = none) :
    (prepareFilePath env fs "private key" f.keyPath f.overwriteExisted).err = none ∧
    (prepareFilePath env fs "certificate request" f.certReqPath f.overwriteExisted).err = none ∧
    ((f.selfSignCertPath ≠ "" →
        (prepareFilePath env fs "self-signed certificate" f.selfSignCertPath
          f.overwriteExisted).err = none) →
      p.err = none ∧ p.keyPath = path ∧ p.certReqPath = path) ∧
    ((main env fs args).exitCode = 0 →
      env.fileOf p.selfSignCertPath ≠ env.fileOf path →
      p.err = none ∧ p.keyPath = path ∧ p.certReqPath = path ∧
      ∃ key keyBlk csr,
        (keyBlk.type = "RSA PRIVATE KEY" ∨ keyBlk.type = "PRIVATE KEY") ∧
        (createPrivateKey env fs path p.keySize p.keyPKCS1).files (env.fileOf path)
          = some (FileContent.pem [keyBlk]) ∧
        env.x509CreateCertificateRequest ⟨p.subjectName, p.certDNSNames⟩ key = .ok csr ∧
        (main env fs args).files (env.fileOf path)
          = some (FileContent.pem [⟨"CERTIFICATE REQUEST", csr⟩]) ∧
        (main env fs args).files (env.fileOf path) ≠ some (FileContent.pem [keyBlk]) ∧
        (main env fs args).events.count (Event.osCreate path) = 2) := by
  have hst : osStat env fs path
      = some ⟨"stat " ++ path ++ ": no such file or directory", true⟩ := by
    simp [osStat, hstat, hnofile]
  have hk0 : (prepareFilePath env fs "private key" f.keyPath f.overwriteExisted).err
      = none := by
    unfold prepareFilePath
    simp [hka, hst, osIsNotExist]
  have hq0 : (prepareFilePath env fs "certificate request" f.certReqPath
      f.overwriteExisted).err = none := by
    unfold prepareFilePath
    simp [hra, hst, osIsNotExist]
  refine ⟨hk0, hq0, ?_, ?_⟩
  · intro hc0
    have hk1 := prepareFilePath_absTargetPath env fs "private key" f.keyPath
      f.overwriteExisted
    have hq1 := prepareFilePath_absTargetPath env fs "certificate request" f.certReqPath
      f.overwriteExisted
    rw [hka] at hk1
    rw [hra] at hq1
    have hpr : resolveFlags env fs f = p := by rw [← hp, ← hf]; rfl
    rw [← hpr]
    unfold resolveFlags
    by_cases h3 : f.selfSignCertPath = ""
    · simp [hkeyne, hreqne, h3, hk0, hq0, hk1, hq1]
    · simp [hkeyne, hreqne, h3, hk0, hq0, hk1, hq1, hc0 h3]
  intro hexit hself
  obtain ⟨hpe, hke, key, hkey, hq, hc⟩ := main_exit_zero env fs args p _ hp rfl hexit
  have hpr : resolveFlags env fs f = p := by rw [← hp, ← hf]; rfl
  have hr := resolveFlags_ok env fs f (by rw [hpr]; exact hpe)
  rw [hpr] at hr
  obtain ⟨-, -, -, -, hkp, hrp, -, -, -, -, -, -⟩ := hr
  have hkp2 : p.keyPath = path := by
    rw [hkp, prepareFilePath_absTargetPath, hka]
  have hrp2 : p.certReqPath = path := by
    rw [hrp, if_neg hreqne, prepareFilePath_absTargetPath, hra]
  have hreq : p.certReqPath ≠ "" := by rw [hrp2]; exact hpath
  have hqe := hq hreq
  rw [hkp2] at hke hkey hqe hc
  rw [hrp2] at hqe hc
  simp only [hpath, if_false] at hc
  obtain ⟨keyBlk, hty, hkfile, hkev⟩ := createPrivateKey_ok env fs path p.keySize
    p.keyPKCS1 hke
  obtain ⟨-, hqok, -, -⟩ := createCertificateRequest_spec env
    (createPrivateKey env fs path p.keySize p.keyPKCS1).files path
    p.subjectName p.certDNSNames key
  obtain ⟨csr, hcsr, hqfile, hqev⟩ := hqok hqe
  have hpcount : List.count (Event.osCreate path) p.events = 0 := by
    rw [List.count_eq_zero]
    intro hmem
    have := (resolveFlags_events env fs (flagParse args) _ (by rw [← hp] at hmem; exact hmem)).1
    simp [Event.isFileWrite] at this
  have hne : some (FileContent.pem [(⟨"CERTIFICATE REQUEST", csr⟩ : PEMBlock)])
      ≠ some (FileContent.pem [keyBlk]) := by
    intro heq
    simp only [Option.some.injEq, FileContent.pem.injEq, List.cons.injEq, and_true] at heq
    rw [← heq] at hty
    rcases hty with h | h <;> simp at h
  refine ⟨hpe, hkp2, hrp2, key, keyBlk, csr, hty, hkfile, hcsr, ?_⟩
  rw [main_of_key_ok env fs args p (createPrivateKey env fs path p.keySize p.keyPKCS1) key hp
      (by rw [hkp2]) hpe hke hkey,
    mainCertReq_ok env _ _ p key
      (createCertificateRequest env (createPrivateKey env fs path p.keySize p.keyPKCS1).files
        path p.subjectName p.certDNSNames key) hreq (by rw [hrp2]) hqe]
  by_cases hs : p.selfSignCertPath = ""
  · rw [mainSelfSign_skip env _ _ p key hs]
    refine ⟨hqfile, fun h => hne (hqfile.symm.trans h), ?_⟩
    simp [List.count_append, hpcount, hkev, hqev, List.count_cons]
  · have hce := hc hs
    obtain ⟨hcframe, hcok, -, -⟩ := createSelfSignedCertificate_spec env
      (createCertificateRequest env (createPrivateKey env fs path p.keySize
        p.keyPKCS1).files path p.subjectName p.certDNSNames key).files 0
      p.selfSignCertPath p.subjectName p.certDNSNames p.selfSignedCertValidDuration key
    obtain ⟨cer, -, -, hcev⟩ := hcok hce
    rw [mainSelfSign_ok env _ _ p key _ hs rfl hce]
    have hfin := hcframe (env.fileOf path) (Ne.symm hself)
    refine ⟨hfin.trans hqfile, fun h => hne (hqfile.symm.trans (hfin.symm.trans h)), ?_⟩
    have hself2 : ¬ (p.selfSignCertPath = path) := fun h => hself (by rw [h])
    simp [List.count_append, hpcount, hkev, hqev, hcev, List.count_cons, hself2]

/-! ## Evaluations on concrete runs -/

/-- Witness for C1: the default key path, once
with a file already there and once without. -/
theorem prepareFilePath_by_stat_outcome_witness :
    envOK.filepathAbs "cert-key.pem" = ("/work/cert-key.pem", none) ∧
    (prepareFilePath envOK oldKeyFiles "private key" "cert-key.pem" false).err
      = some (errorsNew ("file existed: [" ++ "/work/cert-key.pem" ++ "]")) ∧
    ((prepareFilePath envOK oldKeyFiles "private key" "cert-key.pem" true).absTargetPath
        = "/work/cert-key.pem" ∧
      (prepareFilePath envOK oldKeyFiles "private key" "cert-key.pem" true).err = none) ∧
    ((prepareFilePath envOK noFiles "private key" "cert-key.pem" false).absTargetPath
        = "/work/cert-key.pem" ∧
      (prepareFilePath envOK noFiles "private key" "cert-key.pem" false).err = none) :=
  ⟨by decide,
   (prepareFilePath_by_stat_outcome envOK oldKeyFiles "private key" "cert-key.pem"
      "/work/cert-key.pem" false (by decide)).2.1 (by decide) rfl,
   (prepareFilePath_by_stat_outcome envOK oldKeyFiles "private key" "cert-key.pem"
      "/work/cert-key.pem" true (by decide)).2.2.1 (by decide) rfl,
   (prepareFilePath_by_stat_outcome envOK noFiles "private key" "cert-key.pem"
      "/work/cert-key.pem" false (by decide)).2.2.2.1
      ⟨"stat /work/cert-key.pem: no such file or directory", true⟩ (by decide) rfl⟩

/-- Witness for C2: an empty `-key` value, and
the default paths when the key file already exists. -/
theorem parseCommandParameter_error_iff_witness :
    ((parseCommandParameter envOK noFiles [FlagArg.key ""]).err = some errRequireKeyPath ∧
      (parseCommandParameter envOK noFiles [FlagArg.key ""]).events = []) ∧
    ((parseCommandParameter envOK oldKeyFiles []).err
        = (prepareFilePath envOK oldKeyFiles "private key" "cert-key.pem" false).err ∧
      (parseCommandParameter envOK oldKeyFiles []).events
        = (prepareFilePath envOK oldKeyFiles "private key" "cert-key.pem" false).events) :=
  ⟨(parseCommandParameter_error_iff envOK noFiles [FlagArg.key ""] _ _ _ _ rfl rfl rfl
      rfl).2.1 (by decide),
   (parseCommandParameter_error_iff envOK oldKeyFiles [] _ _ _ _ rfl rfl rfl
      rfl).2.2.1 (by decide) (by decide)⟩

/-- C3 as stated fails: with `-req` naming the key file, a request step that
fails while writing leaves the key file truncated, not as the key step wrote
it. -/
theorem shared_path_request_failure_destroys_key :
    (parseCommandParameter envRequestWriteFails noFiles [FlagArg.req "cert-key.pem"]).err
      = none ∧
    (createPrivateKey envRequestWriteFails noFiles "/work/cert-key.pem" 2048 false).err
      = none ∧
    (createPrivateKey envRequestWriteFails noFiles "/work/cert-key.pem" 2048 false).files
      "/work/cert-key.pem" = some (FileContent.pem [⟨"PRIVATE KEY", [48, 8]⟩]) ∧
    (main envRequestWriteFails noFiles [FlagArg.req "cert-key.pem"]).exitCode = 1 ∧
    (main envRequestWriteFails noFiles [FlagArg.req "cert-key.pem"]).files
      "/work/cert-key.pem" = some (FileContent.incomplete ⟨"CERTIFICATE REQUEST", [48, 10]⟩) ∧
    (main envRequestWriteFails noFiles [FlagArg.req "cert-key.pem"]).files
        "/work/cert-key.pem"
      ≠ (createPrivateKey envRequestWriteFails noFiles "/work/cert-key.pem" 2048 false).files
        "/work/cert-key.pem" := by
  decide

/-- Witness for C3, as amended: the default command line when the library
cannot build the request makes no certificate call and leaves the key file as
the key step wrote it; and the default command line on a file system that
already holds the key file leaves the file system as it was. -/
theorem main_aborts_at_first_failure_witness :
    ((∀ e ∈ (main envRequestFails noFiles []).events, e.isCertCall = false) ∧
      (main envRequestFails noFiles []).files "/work/cert-key.pem"
        = some (FileContent.pem [⟨"PRIVATE KEY", [48, 8]⟩])) ∧
    (main envOK oldKeyFiles []).files = oldKeyFiles :=
  have h := (main_aborts_at_first_failure envRequestFails noFiles [] _ _ rfl rfl).2.2.1
    (by decide) (by decide) (by decide) sampleKey _ (by decide) rfl (by decide)
  have g := (main_aborts_at_first_failure envOK oldKeyFiles [] _ _ rfl rfl).1 (by decide)
  ⟨⟨h.2.1, (h.2.2 "/work/cert-key.pem" (by decide)).trans (by decide)⟩, g.1⟩

/-- The failure of C3 through a symbolic link: with `-req link.pem`, where
`link.pem` is a link to the key file, both existence checks pass on different
paths, and a request step that fails while writing leaves the key file
truncated. -/
theorem linked_path_request_failure_destroys_key :
    (parseCommandParameter envLinkedRequest noFiles [FlagArg.req "link.pem"]).err = none ∧
    (parseCommandParameter envLinkedRequest noFiles [FlagArg.req "link.pem"]).keyPath
      = "/work/cert-key.pem" ∧
    (parseCommandParameter envLinkedRequest noFiles [FlagArg.req "link.pem"]).certReqPath
      = "/work/link.pem" ∧
    (createPrivateKey envLinkedRequest noFiles "/work/cert-key.pem" 2048 false).files
      "/work/cert-key.pem" = some (FileContent.pem [⟨"PRIVATE KEY", [48, 8]⟩]) ∧
    (main envLinkedRequest noFiles [FlagArg.req "link.pem"]).files "/work/cert-key.pem"
      = some (FileContent.incomplete ⟨"CERTIFICATE REQUEST", [48, 10]⟩) := by
  decide

/-- Witness for C4: two DNS names and no `-CN`. -/
theorem subject_common_name_default_witness :
    (parseCommandParameter envOK noFiles
      [FlagArg.dnsName " example.com ", FlagArg.dnsName "www.example.com"]).err = none ∧
    (parseCommandParameter envOK noFiles
      [FlagArg.dnsName " example.com ", FlagArg.dnsName "www.example.com"]).subjectName.CommonName
      = "example.com" ∧
    (parseCommandParameter envOK noFiles
      [FlagArg.dnsName " example.com ", FlagArg.dnsName "www.example.com"]).certDNSNames
      = (flagParse
          [FlagArg.dnsName " example.com ", FlagArg.dnsName "www.example.com"]).dnsNames :=
  have h := subject_common_name_default envOK noFiles
    [FlagArg.dnsName " example.com ", FlagArg.dnsName "www.example.com"] _ _ rfl rfl
    (by decide)
  ⟨by decide, h.2.1 (by decide) "example.com" ["www.example.com"] (by decide), h.2.2.2.1⟩

/-- C5 as stated fails: on the default command line, with configuration and
the key step successful, a failing request step means that the certificate
builder is not called although the certificate path is not empty. -/
theorem certificate_step_skipped_after_request_failure :
    (parseCommandParameter envRequestFails noFiles []).err = none ∧
    (createPrivateKey envRequestFails noFiles "/work/cert-key.pem" 2048 false).err = none ∧
    (parseCommandParameter envRequestFails noFiles []).selfSignCertPath
      = "/work/cert-selfsigned.pem" ∧
    (main envRequestFails noFiles []).events.any Event.isCertCall = false ∧
    ¬ ((main envRequestFails noFiles []).events.any Event.isCertCall = true ↔
      (parseCommandParameter envRequestFails noFiles []).selfSignCertPath ≠ "") := by
  decide

/-- Witness for C5, as amended: both optional paths empty. -/
theorem main_optional_steps_witness :
    (parseCommandParameter envOK noFiles [FlagArg.req "", FlagArg.selfSign ""]).err = none ∧
    (main envOK noFiles [FlagArg.req "", FlagArg.selfSign ""]).exitCode = 0 ∧
    (∀ path, Event.osCreate path ∈
        (main envOK noFiles [FlagArg.req "", FlagArg.selfSign ""]).events →
      path = "/work/cert-key.pem") ∧
    ¬ ((main envOK noFiles [FlagArg.req "", FlagArg.selfSign ""]).events.any
      Event.isCertReqCall = true) :=
  have h := main_optional_steps envOK noFiles [FlagArg.req "", FlagArg.selfSign ""] _ _
    sampleKey rfl rfl (by decide) (by decide) (by decide)
  have h3 := h.2.2 (by decide) (by decide)
  ⟨by decide, h3.1, h3.2.2.2.1, fun hc => (h.1.1 hc) (by decide)⟩

/-- Witness for C6, as amended: a PKCS#1 key on an empty file system, once
written and once with `os.Create` failing. -/
theorem createPrivateKey_one_block_witness :
    (createPrivateKey envOK noFiles "/work/cert-key.pem" 2048 true).files
        "/work/cert-key.pem"
      = some (FileContent.pem [⟨"RSA PRIVATE KEY", envOK.marshalPKCS1 sampleKey⟩]) ∧
    (createPrivateKey envNoCreate noFiles "/missing/key.pem" 2048 true).err
      = some ⟨"open: no such file or directory", true⟩ ∧
    (createPrivateKey envNoCreate noFiles "/missing/key.pem" 2048 true).files = noFiles :=
  have h := ((createPrivateKey_one_block envOK noFiles "/work/cert-key.pem" 2048 true).1
    sampleKey rfl rfl).2.2.1 (by decide) (by decide)
  have g := ((createPrivateKey_one_block envNoCreate noFiles "/missing/key.pem" 2048 true).1
    sampleKey rfl rfl).1 ⟨"open: no such file or directory", true⟩ (by decide)
  ⟨h.2.1, g.1, g.2.1⟩

/-- Witness for C7, as amended: the default 366 days. -/
theorem validDuration_of_days_witness :
    (flagParse []).selfSignedCertValidDays = 366 ∧
    (parseCommandParameter envOK noFiles []).err = none ∧
    (parseCommandParameter envOK noFiles []).selfSignedCertValidDuration
      = 366 * 86400000000000 :=
  ⟨by decide, by decide,
   (validDuration_of_days envOK noFiles [] 366 (by decide) (by decide)).2
     (by decide) (by decide)⟩

/-- Witness for C8, as amended: on a clock that stands still
the window is exactly the duration. -/
theorem certTemplate_validity_window_witness :
    (certTemplate envFrozenClock 0 Name.zero [] 31622400000000000).NotAfter -
        (certTemplate envFrozenClock 0 Name.zero [] 31622400000000000).NotBefore
      = 31622400000000000 :=
  (certTemplate_validity_window envFrozenClock noFiles 0 "/work/cert-selfsigned.pem"
    Name.zero [] 31622400000000000 sampleKey).2.2.2.2.2 (by decide)

/-- Witness for C10: `-req cert-key.pem` with the
default key path, on an empty file system. -/
theorem shared_key_and_request_path_witness :
    (parseCommandParameter envOK noFiles [FlagArg.req "cert-key.pem"]).err = none ∧
    (parseCommandParameter envOK noFiles [FlagArg.req "cert-key.pem"]).keyPath
      = (parseCommandParameter envOK noFiles [FlagArg.req "cert-key.pem"]).certReqPath ∧
    (main envOK noFiles [FlagArg.req "cert-key.pem"]).exitCode = 0 ∧
    ∃ csr, (main envOK noFiles [FlagArg.req "cert-key.pem"]).files "/work/cert-key.pem"
        = some (FileContent.pem [⟨"CERTIFICATE REQUEST", csr⟩]) ∧
      (main envOK noFiles [FlagArg.req "cert-key.pem"]).events.count
        (Event.osCreate "/work/cert-key.pem") = 2 := by
  have h := shared_key_and_request_path envOK noFiles [FlagArg.req "cert-key.pem"] _ _
    "/work/cert-key.pem" rfl rfl (by decide) (by decide) (by decide) (by decide) (by decide)
    (by decide) (by decide)
  obtain ⟨hpe, hk, hr, key, blk, csr, -, -, -, hfile, -, hcount⟩ :=
    h.2.2.2 (by decide) (by decide)
  exact ⟨hpe, hk.trans hr.symm, by decide, csr, hfile, hcount⟩

/-- The same sharing between `-key` and `-selfSign`: on the empty file system
the run with `-selfSign cert-key.pem` ends with status 0 and the key path
holds the "CERTIFICATE" block. -/
theorem shared_key_and_certificate_path_run :
    (parseCommandParameter envOK noFiles [FlagArg.selfSign "cert-key.pem"]).err = none ∧
    (parseCommandParameter envOK noFiles [FlagArg.selfSign "cert-key.pem"]).keyPath
      = (parseCommandParameter envOK noFiles
          [FlagArg.selfSign "cert-key.pem"]).selfSignCertPath ∧
    (main envOK noFiles [FlagArg.selfSign "cert-key.pem"]).exitCode = 0 ∧
    (main envOK noFiles [FlagArg.selfSign "cert-key.pem"]).files "/work/cert-key.pem"
      = some (FileContent.pem [⟨"CERTIFICATE", [48, 5, 9]⟩]) := by
  decide

end CertRequest
